import Mathlib

/-!
Api_List_Tareas: the authenticated request client, the retrying fetch controller and
the auth provider.

A shallow embedding of `frontend/src/services/api.js` (the axios instance with its
request and response interceptors, and `authService`), of
`frontend/src/contexts/TaskContext.js` (`handleApiError`, `fetchTasks`, `createTask`,
`updateTask`, `deleteTask`) and of `frontend/src/contexts/AuthContext.js` (`checkAuth`,
`login`, `register`, `logout`, `logoutAll`), followed by the properties established
about them.

Promises are modelled by explicit state passing: an asynchronous function becomes a
function from the world before the call to its settled outcome and the world after.
Unbounded re-entrancy (an interceptor that sends a request through the intercepted
client, a retry that re-invokes the operation) is modelled with a fuel argument;
`none` means the fuel ran out before the promise settled.
-/

namespace ApiListTareas

/-! ## JavaScript values and keyed objects -/

/-- Primitive JavaScript values that can appear as a field of a JSON body. -/
inductive JsVal
  | undefined
  | null
  | bool (b : Bool)
  | num (n : Int)
  | str (s : String)
deriving DecidableEq, Repr

/-- String coercion of a primitive, as done by a template literal and by
`localStorage.setItem`. -/
def JsVal.toJsString : JsVal → String
  | .undefined => "undefined"
  | .null => "null"
  | .bool true => "true"
  | .bool false => "false"
  | .num n => toString n
  | .str s => s

/-- Property read `obj[k]` on an object given as its list of own properties. -/
def getKey {β : Type} (k : String) : List (String × β) → Option β
  | [] => none
  | (k1, v) :: rest => if k1 = k then some v else getKey k rest

/-- Property write `obj[k] = v`. -/
def setKey {β : Type} (k : String) (v : β) : List (String × β) → List (String × β)
  | [] => [(k, v)]
  | (k1, v1) :: rest => if k1 = k then (k, v) :: rest else (k1, v1) :: setKey k v rest

/-- Property removal `delete obj[k]`. -/
def removeKey {β : Type} (k : String) : List (String × β) → List (String × β)
  | [] => []
  | (k1, v1) :: rest => if k1 = k then removeKey k rest else (k1, v1) :: removeKey k rest

/-- Truthiness of the result of `localStorage.getItem`: `null` and the empty string
are falsy, every other string is truthy. -/
def truthy : Option String → Bool
  | none => false
  | some s => decide (s ≠ "")

/-! ## Browser state: `localStorage` and `window.location` -/

/-- The contents of `localStorage`. -/
abbrev Storage := List (String × String)

/-- Models `localStorage.getItem(key)`; `none` is `null`. -/
def Storage.getItem (st : Storage) (key : String) : Option String := getKey key st

/-- Models `localStorage.setItem(key, value)`. -/
def Storage.setItem (st : Storage) (key value : String) : Storage := setKey key value st

/-- Models `localStorage.removeItem(key)`. -/
def Storage.removeItem (st : Storage) (key : String) : Storage := removeKey key st

/-! ## axios: request configs, responses, errors -/

/-- An axios request config. `_retry` is the custom marker the response interceptor
sets on a config; an absent marker is `false`. -/
structure Config where
  method : String
  url : String
  headers : List (String × String)
  data : Option (List (String × JsVal))
  params : List (String × String)
  _retry : Bool
deriving DecidableEq, Repr

/-- An HTTP response as axios presents it. -/
structure Response where
  status : Nat
  headers : List (String × String)
  data : Option (List (String × JsVal))
deriving DecidableEq, Repr

/-- An axios error: the config of the failed request, and the response when one
was received (`none` for a network failure or a timeout). -/
structure AxiosError where
  config : Config
  response : Option Response
deriving DecidableEq, Repr

/-- Reads `error.response?.status`. -/
def AxiosError.status (e : AxiosError) : Option Nat := e.response.map (fun r => r.status)

/-- What the network does with one request. -/
inductive NetResult
  | response (r : Response)
  | networkError
deriving DecidableEq, Repr

/-- The server and the network: the answer to a request may depend on every request
sent before it. -/
abbrev Server := List Config → Config → NetResult

/-- The world the client runs in. `sent` lists the requests that reached the network,
oldest first; `navigations` lists the values assigned to `window.location.href`,
oldest first. -/
structure World where
  storage : Storage
  navigations : List String
  sent : List Config
deriving DecidableEq, Repr

/-- A settled promise of the client: fulfilled with a response or rejected with an
error. -/
abbrev Outcome := Except AxiosError Response

/-- The client as seen by code that calls it: `none` when the fuel is exhausted. -/
abbrev Client := Config → World → Option (Outcome × World)

/-- The config built by `api.post(url, data)` from the instance defaults
(api.js lines 6-11). -/
def postConfig (url : String) (data : List (String × JsVal)) : Config :=
  { method := "post", url := url, headers := [("Content-Type", "application/json")],
    data := some data, params := [], _retry := false }

/-- The request interceptor (api.js lines 14-21). -/
def requestInterceptor (st : Storage) (config : Config) : Config :=
  let token := st.getItem "access_token"
  if truthy token then
    { config with
      headers := setKey "Authorization" ("Bearer " ++ (token.getD "")) config.headers }
  else config

/-- The transport with axios's default `validateStatus`: a response settles the
promise as fulfilled exactly when `200 <= status < 300`. -/
def adapter (srv : Server) (config : Config) (w : World) : Outcome × World :=
  let w1 := { w with sent := w.sent ++ [config] }
  match srv w.sent config with
  | .response r =>
    if 200 ≤ r.status ∧ r.status < 300 then (.ok r, w1)
    else (.error { config := config, response := some r }, w1)
  | .networkError => (.error { config := config, response := none }, w1)

/-- The fulfilled branch of the response interceptor (api.js line 29). -/
def responseFulfilled (response : Response) : Response := response

/-- The `catch (refreshError)` block (api.js lines 49-54). -/
def refreshCatch (w : World) : World :=
  { w with
    storage := (w.storage.removeItem "access_token").removeItem "refresh_token",
    navigations := w.navigations ++ ["/login"] }

/-- The rejected branch of the response interceptor (api.js lines 30-58). `api` is the
intercepted client itself, through which the handler sends the refresh call and the
replay. -/
def responseRejected (api : Client) (error : AxiosError) (w : World) :
    Option (Outcome × World) :=
  let originalRequest := error.config
  if error.status = some 401 ∧ originalRequest._retry = false then
    let originalRequest := { originalRequest with _retry := true }
    let error := { error with config := originalRequest }
    let refreshToken := w.storage.getItem "refresh_token"
    if truthy refreshToken then
      match api (postConfig "/refresh" [("token", .str (refreshToken.getD ""))]) w with
      | none => none
      | some (.ok response, w1) =>
        match response.data with
        | none => some (.error error, refreshCatch w1)
        | some data =>
          let access_token := ((getKey "access_token" data).getD .undefined).toJsString
          let w2 := { w1 with storage := w1.storage.setItem "access_token" access_token }
          let originalRequest :=
            { originalRequest with
              headers := setKey "Authorization" ("Bearer " ++ access_token)
                originalRequest.headers }
          api originalRequest w2
      | some (.error _, w1) => some (.error error, refreshCatch w1)
    else some (.error error, w)
  else some (.error error, w)

/-- The intercepted instance `api`: request interceptor, transport, response
interceptor. The fuel bounds the depth of requests sent from inside the response
interceptor. -/
def api : Nat → Server → Client
  | 0, _, _, _ => none
  | fuel + 1, srv, config, w =>
    match adapter srv (requestInterceptor w.storage config) w with
    | (.ok response, w1) => some (.ok (responseFulfilled response), w1)
    | (.error error, w1) => responseRejected (api fuel srv) error w1

/-! ## TaskContext.js: provider state, `handleApiError`, `fetchTasks` -/

/-- A task as the server returns it; `id` is the only field the provider reads. -/
structure Task where
  id : Nat
  fields : List (String × JsVal)
deriving DecidableEq, Repr

/-- The values that the task operations pass around and that the `tasks` array can
hold: a task object of the server, or the object an operation of the provider resolves
with (`id` is read on both; only a task object has one). -/
inductive TaskValue
  | task (t : Task)
  | succeeded (task : TaskValue)
  | done
  | failed (error : Option String)
deriving DecidableEq, Repr

/-- Reads `task.id` on an element of the `tasks` array; `none` is `undefined`. -/
def TaskValue.id : TaskValue → Option Nat
  | .task t => some t.id
  | .succeeded _ => none
  | .done => none
  | .failed _ => none

/-- The payload of a successful `taskService.getTasks` call. -/
structure TaskPage where
  items : List Task
  total : Nat
  page : Nat
  size : Nat
  pages : Nat
deriving DecidableEq, Repr

/-- The `response` property of an error rejected by the task service; `detail` is its
`data?.detail`. Each part may be absent, as in the objects the test-suite rejects
with. -/
structure ErrorResponse where
  status : Option Nat
  headers : Option (List (String × String))
  detail : Option String
deriving DecidableEq, Repr

/-- An error rejected by the task service. -/
structure ServiceError where
  message : Option String
  response : Option ErrorResponse
deriving DecidableEq, Repr

/-- Reads `error.response?.status`. -/
def ServiceError.status (e : ServiceError) : Option Nat := e.response.bind (fun r => r.status)

/-- Reads `error.response?.data?.detail`. -/
def ServiceError.detail (e : ServiceError) : Option String := e.response.bind (fun r => r.detail)

/-- What an operation of the provider can reject with. -/
inductive Thrown
  | service (e : ServiceError)
  | newError (message : String)
  | typeError
deriving DecidableEq, Repr

/-- Reads `error.response?.status` on a caught value. -/
def Thrown.status : Thrown → Option Nat
  | .service e => e.status
  | .newError _ => none
  | .typeError => none

/-- Reads `error.response?.data?.detail` on a caught value. -/
def Thrown.detail : Thrown → Option String
  | .service e => e.detail
  | .newError _ => none
  | .typeError => none

/-- The `pagination` state. -/
structure Pagination where
  total : Nat
  page : Nat
  size : Nat
  pages : Nat
deriving DecidableEq, Repr

/-- The React state of `TaskProvider` (TaskContext.js lines 17-27): what the setters
write and the next render reads. -/
structure TaskState where
  tasks : List TaskValue
  loading : Bool
  error : Option String
  retryCount : Nat
  lastFetchTime : Nat
  pagination : Pagination
deriving DecidableEq, Repr

/-- The state after the first render. -/
def TaskState.initial : TaskState :=
  { tasks := [], loading := false, error := none, retryCount := 0, lastFetchTime := 0,
    pagination := { total := 0, page := 1, size := 10, pages := 0 } }

/-- The state values bound by one render of `TaskProvider`. The functions created by
that render (`handleApiError`, `fetchTasks` and the retry callback, which calls the
`fetchTasks` of the same render) read these constants, not the live state. -/
structure Render where
  retryCount : Nat
  lastFetchTime : Nat
deriving DecidableEq, Repr

/-- The render that follows a given state. -/
def Render.ofState (s : TaskState) : Render :=
  { retryCount := s.retryCount, lastFetchTime := s.lastFetchTime }

/-- The query parameters of a task listing. -/
abbrev Params := List (String × JsVal)

/-- The settled result of one `taskService.getTasks` call and the time it took. -/
structure ServiceReply where
  latency : Nat
  result : Except ServiceError TaskPage

/-- The task service seen from the provider: its answer to a call may depend on every
call made so far. The argument lists the calls oldest first, the current one last, each
with the time (ms) at which it was issued. -/
abbrev GetTasks := List (Nat × Params) → ServiceReply

/-- A call to one of the mutating methods of the task service, with its arguments. -/
inductive MutationCall
  | createTask (taskData : Params)
  | updateTask (id : Nat) (taskData : Params)
  | deleteTask (id : Nat)
deriving DecidableEq, Repr

/-- A runtime that fires at once every timer whose delay the model does not compute
itself. This is what a browser does with a product beyond the range of the timer (the
delay wraps to a negative number, which is taken as 0; Node takes 1 ms), with `NaN` and
with a negative product. The concrete worlds of this development use it and meet no
other text. -/
def timersFireAtOnce : String → Nat := fun _ => 0

/-- The world the provider runs in: its state, the clock read by `Date.now()` (ms), the
`taskService.getTasks` calls issued so far, the calls to the mutating methods of the
service issued so far, oldest first, and the JavaScript runtime as far as the model does
not compute it: `runtimeDelay retryAfter` is the time in ms for which the runtime
suspends `wait(retryAfter * 1000)` when `retryAfter` is a text whose product with 1000
the model does not follow (see `retryDelay`). -/
structure TaskWorld where
  state : TaskState
  now : Nat
  getTasksCalls : List (Nat × Params)
  mutationCalls : List MutationCall := []
  runtimeDelay : String → Nat := timersFireAtOnce

/-- A settled promise of a provider operation. -/
abbrev TaskOutcome (α : Type) := Except Thrown α

/-- Models `await wait(ms)` (TaskContext.js line 29). -/
def wait (ms : Nat) (w : TaskWorld) : TaskWorld := { w with now := w.now + ms }

/-- Models `setError`. -/
def setError (e : Option String) (w : TaskWorld) : TaskWorld :=
  { w with state := { w.state with error := e } }

/-- Models `setLoading`. -/
def setLoading (b : Bool) (w : TaskWorld) : TaskWorld :=
  { w with state := { w.state with loading := b } }

/-- Models `setRetryCount` with an updater function. -/
def setRetryCount (f : Nat → Nat) (w : TaskWorld) : TaskWorld :=
  { w with state := { w.state with retryCount := f w.state.retryCount } }

/-- Models `setLastFetchTime`. -/
def setLastFetchTime (t : Nat) (w : TaskWorld) : TaskWorld :=
  { w with state := { w.state with lastFetchTime := t } }

/-- Models `setTasks` with a value. -/
def setTasks (ts : List TaskValue) (w : TaskWorld) : TaskWorld :=
  { w with state := { w.state with tasks := ts } }

/-- Models `setTasks` with an updater function. -/
def setTasksWith (f : List TaskValue → List TaskValue) (w : TaskWorld) : TaskWorld :=
  { w with state := { w.state with tasks := f w.state.tasks } }

/-- Models `setPagination`. -/
def setPagination (p : Pagination) (w : TaskWorld) : TaskWorld :=
  { w with state := { w.state with pagination := p } }

/-- Evaluates `detail || fallback`: the detail when it is a non-empty string. -/
def detailOr (detail : Option String) (fallback : String) : String :=
  if truthy detail then detail.getD "" else fallback

/-- Evaluates `error.response.headers['retry-after'] || 5`, as the text it has in a
template literal. -/
def retryAfterOf (headers : List (String × String)) : String :=
  let h := getKey "retry-after" headers
  if truthy h then h.getD "" else "5"

/-- Reads a string of decimal digits as a number, most significant digit first. -/
def readDigits : List Char → Nat → Option Nat
  | [], acc => some acc
  | c :: cs, acc =>
    if 48 ≤ c.toNat ∧ c.toNat ≤ 57 then readDigits cs (acc * 10 + (c.toNat - 48)) else none

/-- The largest delay `setTimeout` takes as it is: `2^31 - 1` ms. -/
def maxTimerDelay : Nat := 2147483647

/-- The delay of `wait(retryAfter * 1000)` in ms. The model computes it for a
`retryAfter` that is a non-empty string of decimal digits spelling `n` with
`n * 1000` within the range of `setTimeout`: the product is `n * 1000` and the timer
runs that long. For every other text (a fraction, an exponent, a sign, blanks, a date,
a product beyond the range of the timer) the delay is the one the runtime gives,
`runtimeDelay retryAfter`. -/
def retryDelay (runtimeDelay : String → Nat) (retryAfter : String) : Nat :=
  match retryAfter.data with
  | [] => runtimeDelay retryAfter
  | c :: cs =>
    match readDigits (c :: cs) 0 with
    | some n => if n * 1000 ≤ maxTimerDelay then n * 1000 else runtimeDelay retryAfter
    | none => runtimeDelay retryAfter

/-- Evaluates `!status` for `status = error.response?.status`. -/
def notStatus : Option Nat → Bool
  | none => true
  | some n => n == 0

/-- Strict equality `b === n` of a boolean and a number: operands of different types
are never strictly equal. -/
def boolStrictEqNum (_b : Bool) (_n : Nat) : Bool := false

/-- The guard `!error.response?.status === 429` of the final `catch` blocks: the
negation is applied first, and its result is compared with 429. -/
def finalCatchGuard (err : Thrown) : Bool := boolStrictEqNum (notStatus err.status) 429

/-- Models `handleApiError` (TaskContext.js lines 31-51), as created by a render that
bound `retryCount`. -/
def handleApiError {α : Type} (retryCount : Nat) (error : ServiceError)
    (retryOperation : TaskWorld → Option (TaskOutcome α × TaskWorld)) (w : TaskWorld) :
    Option (TaskOutcome α × TaskWorld) :=
  let errorMessage := detailOr error.detail "Error en la operación"
  if error.status = some 429 then
    match error.response.bind (fun r => r.headers) with
    | none => some (.error .typeError, w)
    | some headers =>
      let retryAfter := retryAfterOf headers
      let w1 := setError
        (some ("Demasiadas solicitudes. Reintentando en " ++ retryAfter ++ " segundos...")) w
      if retryCount < 3 then
        let w2 := setRetryCount (fun prev => prev + 1) w1
        let w3 := wait (retryDelay w.runtimeDelay retryAfter) w2
        retryOperation w3
      else
        let w2 := setError
          (some "Se ha excedido el límite de reintentos. Por favor, espera un momento.") w1
        let w3 := setRetryCount (fun _ => 0) w2
        some (.error (.newError errorMessage), w3)
  else
    some (.error (.service error), setError (some errorMessage) w)

/-- The wait of the spacing guard of `fetchTasks` (lines 55-61): `none` when no wait
takes place. -/
def spacingWait (now lastFetchTime : Nat) : Option Nat :=
  let timeSinceLastFetch : Int := (now : Int) - (lastFetchTime : Int)
  if timeSinceLastFetch < 1000 then some (1000 - timeSinceLastFetch).toNat else none

/-- Models `fetchTasks` (TaskContext.js lines 53-95), as created by the render `r`. The
fuel bounds the number of nested re-invocations made by the retry callback. -/
def fetchTasks : Nat → GetTasks → Render → Params → TaskWorld →
    Option (TaskOutcome TaskPage × TaskWorld)
  | 0, _, _, _, _ => none
  | fuel + 1, getTasks, r, params, w =>
    let w0 := match spacingWait w.now r.lastFetchTime with
      | some ms => wait ms w
      | none => w
    let w1 := setLastFetchTime w0.now (setError none (setLoading true w0))
    let calls := w1.getTasksCalls ++ [(w1.now, params)]
    let reply := getTasks calls
    let w2 := { w1 with now := w1.now + reply.latency, getTasksCalls := calls }
    let awaited : Option (TaskOutcome TaskPage × TaskWorld) := match reply.result with
      | .ok response => some (.ok response, w2)
      | .error error => handleApiError r.retryCount error (fetchTasks fuel getTasks r params) w2
    match awaited with
    | none => none
    | some (.ok response, w3) =>
      let w4 := setTasks (response.items.map TaskValue.task) w3
      let w5 := setPagination
        { total := response.total, page := response.page, size := response.size,
          pages := response.pages } w4
      let w6 := setRetryCount (fun _ => 0) w5
      some (.ok response, setLoading false w6)
    | some (.error err, w3) =>
      let w4 :=
        if finalCatchGuard err then
          setError (some (detailOr err.detail "Error al cargar tareas")) w3
        else w3
      some (.error err, setLoading false w4)

/-! ## TaskContext.js: `createTask`, `updateTask`, `deleteTask`, `toggleTaskStatus` -/

/-- Reads `error.message` on a caught value. The text of the `TypeError` is the one V8
gives for the read of `retry-after` on missing headers. -/
def Thrown.message : Thrown → Option String
  | .service e => e.message
  | .newError message => some message
  | .typeError => some "Cannot read properties of undefined (reading 'retry-after')"

/-- The settled result of one call to a mutating method of the task service and the
time it took. -/
structure MutationReply (α : Type) where
  latency : Nat
  result : Except ServiceError α

/-- A mutating method of the task service seen from the provider: its answer to a call
may depend on every mutating call made so far. The argument lists the calls oldest
first, the current one last. -/
abbrev Mutation (α : Type) := List MutationCall → MutationReply α

/-- The world in which a call to a mutating method settles. -/
def afterMutation {α : Type} (svc : Mutation α) (call : MutationCall) (w : TaskWorld) :
    TaskWorld :=
  { w with
    now := w.now + (svc (w.mutationCalls ++ [call])).latency,
    mutationCalls := w.mutationCalls ++ [call] }

/-- Models `createTask` (TaskContext.js lines 97-116), as created by the render `r`.
The function resolves in every case; the fuel bounds the number of nested
re-invocations made by the retry callback. -/
def createTask : Nat → Mutation Task → Render → Params → TaskWorld →
    Option (TaskValue × TaskWorld)
  | 0, _, _, _, _ => none
  | fuel + 1, svc, r, taskData, w =>
    let w1 := setError none w
    let reply := svc (w1.mutationCalls ++ [.createTask taskData])
    let w2 := afterMutation svc (.createTask taskData) w1
    let awaited : Option (TaskOutcome TaskValue × TaskWorld) := match reply.result with
      | .ok task => some (.ok (.task task), w2)
      | .error error =>
        handleApiError r.retryCount error
          (fun w => (createTask fuel svc r taskData w).map (fun res => (.ok res.1, res.2))) w2
    match awaited with
    | none => none
    | some (.ok newTask, w3) =>
      some (.succeeded newTask, setTasksWith (fun prevTasks => newTask :: prevTasks) w3)
    | some (.error err, w3) =>
      let w4 :=
        if finalCatchGuard err then
          setError (some (detailOr err.detail "Error al crear tarea")) w3
        else w3
      some (.failed err.message, w4)

/-- Models `updateTask` (TaskContext.js lines 118-137), as created by the render `r`. -/
def updateTask : Nat → Mutation Task → Render → Nat → Params → TaskWorld →
    Option (TaskValue × TaskWorld)
  | 0, _, _, _, _, _ => none
  | fuel + 1, svc, r, id, taskData, w =>
    let w1 := setError none w
    let reply := svc (w1.mutationCalls ++ [.updateTask id taskData])
    let w2 := afterMutation svc (.updateTask id taskData) w1
    let awaited : Option (TaskOutcome TaskValue × TaskWorld) := match reply.result with
      | .ok task => some (.ok (.task task), w2)
      | .error error =>
        handleApiError r.retryCount error
          (fun w => (updateTask fuel svc r id taskData w).map (fun res => (.ok res.1, res.2)))
          w2
    match awaited with
    | none => none
    | some (.ok updatedTask, w3) =>
      some (.succeeded updatedTask,
        setTasksWith
          (fun prevTasks =>
            prevTasks.map (fun task => if task.id = some id then updatedTask else task))
          w3)
    | some (.error err, w3) =>
      let w4 :=
        if finalCatchGuard err then
          setError (some (detailOr err.detail "Error al actualizar tarea")) w3
        else w3
      some (.failed err.message, w4)

/-- Models `deleteTask` (TaskContext.js lines 139-154), as created by the render `r`.
The awaited value is not used by the function, so it is not kept. -/
def deleteTask : Nat → Mutation Unit → Render → Nat → TaskWorld →
    Option (TaskValue × TaskWorld)
  | 0, _, _, _, _ => none
  | fuel + 1, svc, r, id, w =>
    let w1 := setError none w
    let reply := svc (w1.mutationCalls ++ [.deleteTask id])
    let w2 := afterMutation svc (.deleteTask id) w1
    let awaited : Option (TaskOutcome Unit × TaskWorld) := match reply.result with
      | .ok _ => some (.ok (), w2)
      | .error error =>
        handleApiError r.retryCount error
          (fun w => (deleteTask fuel svc r id w).map (fun res => (.ok (), res.2))) w2
    match awaited with
    | none => none
    | some (.ok _, w3) =>
      some (.done,
        setTasksWith (fun prevTasks => prevTasks.filter (fun task => task.id ≠ some id)) w3)
    | some (.error err, w3) =>
      let w4 :=
        if finalCatchGuard err then
          setError (some (detailOr err.detail "Error al eliminar tarea")) w3
        else w3
      some (.failed err.message, w4)

/-- Models `toggleTaskStatus` (TaskContext.js lines 156-158). -/
def toggleTaskStatus (fuel : Nat) (svc : Mutation Task) (r : Render) (id : Nat)
    (completed : Bool) (w : TaskWorld) : Option (TaskValue × TaskWorld) :=
  updateTask fuel svc r id [("completado", .bool completed)] w

deriving instance DecidableEq for Except

/-! ## Vocabulary of the statements about the client -/

/-- The refresh call as it reaches the network: `api.post('/refresh', {token})` after
the request interceptor. -/
def refreshRequest (st : Storage) (refreshToken : String) : Config :=
  requestInterceptor st (postConfig "/refresh" [("token", .str refreshToken)])

/-- The original request as the handler re-issues it: marked as retried and carrying
the new bearer credential. -/
def replayRequest (original : Config) (accessToken : String) : Config :=
  { original with
    headers := setKey "Authorization" ("Bearer " ++ accessToken) original.headers,
    _retry := true }

/-- The error the handler rejects with once it has marked the request of `err`. -/
def markRetried (err : AxiosError) : AxiosError :=
  { err with config := { err.config with _retry := true } }

/-! ## Concrete requests, worlds and servers -/

/-- A task listing request as the caller builds it. -/
def listRequest : Config :=
  { method := "get", url := "/tareas", headers := [("Content-Type", "application/json")],
    data := none, params := [], _retry := false }

/-- A browser holding both tokens, from which `listRequest` has been sent. -/
def loggedInWorld : World :=
  { storage := [("access_token", "old-token"), ("refresh_token", "refresh-token")],
    navigations := [],
    sent := [requestInterceptor [("access_token", "old-token")] listRequest] }

/-- A browser holding an access token only. -/
def accessOnlyWorld : World :=
  { storage := [("access_token", "old-token")],
    navigations := [],
    sent := [requestInterceptor [("access_token", "old-token")] listRequest] }

/-- A 401 response. -/
def unauthorized : Response := { status := 401, headers := [], data := none }

/-- A 500 response. -/
def serverFailure : Response := { status := 500, headers := [], data := none }

/-- The 401 failure of the request sent in `loggedInWorld`. -/
def listError401 : AxiosError :=
  { config := requestInterceptor [("access_token", "old-token")] listRequest,
    response := some unauthorized }

/-- The answer of a refresh endpoint that accepts the refresh token. -/
def refreshed : Response :=
  { status := 200, headers := [], data := some [("access_token", .str "new-token")] }

/-- The answer to a task listing. -/
def listing : Response :=
  { status := 200, headers := [], data := some [("total", .num 0)] }

/-- A server that accepts the refresh token and then serves the replay. -/
def refreshingServer : Server := fun _ c =>
  if c.url = "/refresh" then .response refreshed else .response listing

/-- A server that accepts the refresh token and still answers 401 to the replay. -/
def stillUnauthorizedServer : Server := fun _ c =>
  if c.url = "/refresh" then .response refreshed else .response unauthorized

/-- A server that answers 401 to every request, the refresh call included. -/
def always401 : Server := fun _ _ => .response unauthorized

/-- A server that answers 401 to the first refresh call it sees and 500 to every
request after it. -/
def refresh401ThenFailure : Server := fun sent _ =>
  if sent.length ≤ 1 then .response unauthorized else .response serverFailure

/-- A network that is down. -/
def offline : Server := fun _ _ => .networkError

/-! ## Vocabulary of the statements about the provider -/

/-- A rate-limit rejection as axios produces it: a response with status 429 and a
headers object. -/
def rateLimited (e : ServiceError) : Bool :=
  match e.response with
  | some resp => decide (resp.status = some 429) && resp.headers.isSome
  | none => false

/-- The headers of the response of a service error, `[]` when there are none. -/
def ServiceError.headersD (e : ServiceError) : List (String × String) :=
  (e.response.bind (fun resp => resp.headers)).getD []

/-- The world in which `fetchTasks` issues its call: after the spacing guard and the
three setters that open the `try` block (lines 55-66). -/
def enterFetch (r : Render) (w : TaskWorld) : TaskWorld :=
  let w0 := match spacingWait w.now r.lastFetchTime with
    | some ms => wait ms w
    | none => w
  setLastFetchTime w0.now (setError none (setLoading true w0))

/-- The calls issued once `fetchTasks`, entered in world `w`, has made its call. -/
def callsAfter (r : Render) (params : Params) (w : TaskWorld) : List (Nat × Params) :=
  (enterFetch r w).getTasksCalls ++ [((enterFetch r w).now, params)]

/-- The world in which the call of `fetchTasks`, entered in world `w`, settles. -/
def afterCall (getTasks : GetTasks) (r : Render) (params : Params) (w : TaskWorld) :
    TaskWorld :=
  { enterFetch r w with
    now := (enterFetch r w).now + (getTasks (callsAfter r params w)).latency,
    getTasksCalls := callsAfter r params w }

/-- The world in which the retry callback runs after a 429 within the budget: the
interim message is set, the counter incremented, and the backoff wait is over. -/
def afterBackoff (headers : List (String × String)) (w : TaskWorld) : TaskWorld :=
  wait (retryDelay w.runtimeDelay (retryAfterOf headers))
    (setRetryCount (fun prev => prev + 1)
      (setError
        (some ("Demasiadas solicitudes. Reintentando en " ++ retryAfterOf headers ++
          " segundos..."))
        w))

/-- The success path of `fetchTasks` after the awaited value is known (lines 75-84 and
the `finally` block). -/
def finishOk (response : TaskPage) (w : TaskWorld) : TaskWorld :=
  setLoading false
    (setRetryCount (fun _ => 0)
      (setPagination
        { total := response.total, page := response.page, size := response.size,
          pages := response.pages }
        (setTasks (response.items.map TaskValue.task) w)))

/-- A page of one task. -/
def onePage : TaskPage :=
  { items := [{ id := 1, fields := [("title", .str "Tarea 1")] }],
    total := 1, page := 1, size := 10, pages := 1 }

/-- The 429 rejection of the test-suite. -/
def tooManyRequests : ServiceError :=
  { message := none,
    response := some
      { status := some 429, headers := some [("retry-after", "1")],
        detail := some "Too many requests" } }

/-- A task service that rejects its first `k` calls with 429 and then succeeds. -/
def limitedThenOk (k : Nat) : GetTasks := fun calls =>
  if calls.length ≤ k then { latency := 20, result := .error tooManyRequests }
  else { latency := 20, result := .ok onePage }

/-- The provider right after its first render, at time 5000 ms. -/
def freshProvider : TaskWorld :=
  { state := TaskState.initial, now := 5000, getTasksCalls := [] }

/-! ## Vocabulary and concrete inputs for the retry, spacing and mutation statements -/

/-- The message `handleApiError` sets when it abandons. -/
def limitExceededMessage : String :=
  "Se ha excedido el límite de reintentos. Por favor, espera un momento."

/-- The interim message `handleApiError` sets on a 429, for a given `retryAfter` text. -/
def interimMessage (retryAfter : String) : String :=
  "Demasiadas solicitudes. Reintentando en " ++ retryAfter ++ " segundos..."

/-- A task service that rejects every call with the 429 of the test-suite. -/
def alwaysLimited : GetTasks := fun _ => { latency := 20, result := .error tooManyRequests }

/-- A 429 rejection whose `retry-after` header is `0`. -/
def retryAtOnce : ServiceError :=
  { message := none,
    response := some
      { status := some 429, headers := some [("retry-after", "0")],
        detail := some "Too many requests" } }

/-- A 429 rejection without a `retry-after` header. -/
def limitedNoHeader : ServiceError :=
  { message := none,
    response := some { status := some 429, headers := some [], detail := none } }

/-- A task service that rejects its first call with `retryAtOnce` and then succeeds. -/
def limitedOnceNoDelay : GetTasks := fun calls =>
  if calls.length ≤ 1 then { latency := 20, result := .error retryAtOnce }
  else { latency := 20, result := .ok onePage }

/-- A provider whose attempt counter stands at 3, at time 5000 ms. -/
def exhaustedProvider : TaskWorld :=
  { state := { TaskState.initial with retryCount := 3 }, now := 5000, getTasksCalls := [] }

/-- A provider that has fetched at time 4600 ms, seen at time 5000 ms. -/
def recentProvider : TaskWorld :=
  { state := { TaskState.initial with lastFetchTime := 4600 }, now := 5000,
    getTasksCalls := [(4600, [])] }

/-- The rejection of the test `debe manejar error al obtener tareas`: no status, no
headers, a detail. -/
def detailedFailure : ServiceError :=
  { message := none,
    response := some
      { status := none, headers := none, detail := some "Error al cargar tareas" } }

/-- A rejection with no response at all. -/
def networkFailure : ServiceError := { message := some "Network Error", response := none }

/-- A task service that rejects every call with the given error. -/
def alwaysFailing (e : ServiceError) : GetTasks := fun _ => { latency := 20, result := .error e }

/-- The task the server returns for a creation. -/
def createdTask : Task := { id := 3, fields := [("title", .str "New Task")] }

/-- The task the server returns for an update of task 1. -/
def updatedTaskOne : Task := { id := 1, fields := [("title", .str "Updated Task")] }

/-- A provider that holds tasks 1 and 2, at time 5000 ms. -/
def twoTaskProvider : TaskWorld :=
  { state :=
      { TaskState.initial with
        tasks := [.task { id := 1, fields := [("title", .str "Original Task")] },
          .task { id := 2, fields := [("title", .str "Tarea 2")] }] },
    now := 5000, getTasksCalls := [] }

/-- A mutating method that rejects its first `k` calls with the 429 of the test-suite
and then resolves with `v`. -/
def mutationLimitedThenOk {α : Type} (k : Nat) (v : α) : Mutation α := fun calls =>
  if calls.length ≤ k then { latency := 20, result := .error tooManyRequests }
  else { latency := 20, result := .ok v }

/-- The world in which a mutating operation issues its call and the call settles:
`setError(null)` followed by the call. -/
def afterMutationCall {α : Type} (svc : Mutation α) (call : MutationCall) (w : TaskWorld) :
    TaskWorld :=
  afterMutation svc call (setError none w)

/-! ## api.js: `authService` -/

/-- The body of a response, `response.data`: an object given by its fields, or `none`
when there is no body. -/
abbrev Body := Option (List (String × JsVal))

/-- A settled call to a method of `authService`, with the browser it leaves; `none`
when the fuel of the client is exhausted. -/
abbrev ServiceCall (α : Type) := World → Option (Except AxiosError α × World)

/-- The config built by `api.get(url)` from the instance defaults. -/
def getConfig (url : String) : Config :=
  { method := "get", url := url, headers := [("Content-Type", "application/json")],
    data := none, params := [], _retry := false }

/-- The config built by `api.post('/token', formData, {headers})` (api.js lines 64-72). -/
def tokenConfig (email password : String) : Config :=
  { method := "post", url := "/token",
    headers := [("Content-Type", "application/x-www-form-urlencoded")],
    data := some [("username", .str email), ("password", .str password)],
    params := [], _retry := false }

/-- The config built by `api.post('/logout/all')`, which has no body. -/
def logoutAllConfig : Config :=
  { method := "post", url := "/logout/all", headers := [("Content-Type", "application/json")],
    data := none, params := [], _retry := false }

/-- The two `localStorage.removeItem` calls that end `logout` and `logoutAll`. -/
def removeTokens (w : World) : World :=
  { w with storage := (w.storage.removeItem "access_token").removeItem "refresh_token" }

/-- A method that awaits one request and returns `response.data`. -/
def returnData (client : Client) (config : Config) : ServiceCall Body := fun w =>
  match client config w with
  | none => none
  | some (.ok response, w1) => some (.ok response.data, w1)
  | some (.error e, w1) => some (.error e, w1)

/-- Models `authService.login` (api.js lines 63-74). -/
def authService.login (client : Client) (email password : String) : ServiceCall Body :=
  returnData client (tokenConfig email password)

/-- Models `authService.register` (api.js lines 76-79). -/
def authService.register (client : Client) (userData : List (String × JsVal)) :
    ServiceCall Body :=
  returnData client (postConfig "/register" userData)

/-- Models `authService.logout` (api.js lines 81-88). -/
def authService.logout (client : Client) : ServiceCall Unit := fun w =>
  let refreshToken := w.storage.getItem "refresh_token"
  if truthy refreshToken then
    match client (postConfig "/logout" [("token", .str (refreshToken.getD ""))]) w with
    | none => none
    | some (.ok _, w1) => some (.ok (), removeTokens w1)
    | some (.error e, w1) => some (.error e, w1)
  else some (.ok (), removeTokens w)

/-- Models `authService.getCurrentUser` (api.js lines 90-93). -/
def authService.getCurrentUser (client : Client) : ServiceCall Body :=
  returnData client (getConfig "/me")

/-- Models `authService.logoutAll` (api.js lines 95-99). -/
def authService.logoutAll (client : Client) : ServiceCall Unit := fun w =>
  match client logoutAllConfig w with
  | none => none
  | some (.ok _, w1) => some (.ok (), removeTokens w1)
  | some (.error e, w1) => some (.error e, w1)

/-! ## AuthContext.js -/

/-- The `authService` object as `AuthContext.js` uses it: the module of `api.js`, or
the mock the test-suite puts in its place. -/
structure AuthService where
  login : String → String → ServiceCall Body
  register : List (String × JsVal) → ServiceCall Body
  logout : ServiceCall Unit
  getCurrentUser : ServiceCall Body
  logoutAll : ServiceCall Unit

/-- The `authService` of `api.js`, over the intercepted client. -/
def authServiceOn (client : Client) : AuthService :=
  { login := authService.login client,
    register := authService.register client,
    logout := authService.logout client,
    getCurrentUser := authService.getCurrentUser client,
    logoutAll := authService.logoutAll client }

/-- The React state of `AuthProvider` (AuthContext.js lines 17-19). `user` is `none`
for `null`; `error` holds the text of the message. -/
structure AuthState where
  user : Body
  loading : Bool
  error : Option String
deriving DecidableEq, Repr

/-- The state after the first render. -/
def AuthState.initial : AuthState := { user := none, loading := true, error := none }

/-- Evaluates `isAuthenticated: !!user` (line 117): an object is truthy, `null` is
not. -/
def AuthState.isAuthenticated (s : AuthState) : Bool := s.user.isSome

/-- The world the auth provider runs in: its state and the browser. -/
structure AuthWorld where
  state : AuthState
  browser : World
deriving DecidableEq, Repr

/-- The object `{ success: true }` that `login` and `register` resolve with. -/
inductive Resolved
  | success
deriving DecidableEq, Repr

/-- The `new Error(message)` that `login` and `register` throw. -/
structure NewError where
  message : String
deriving DecidableEq, Repr

/-- What a `catch` block of the auth provider can receive: a rejection of the service,
or the `TypeError` of a property read on a missing body. -/
inductive Caught
  | axios (e : AxiosError)
  | typeError
deriving DecidableEq, Repr

/-- Reads `error.response?.status` on a caught value. -/
def Caught.status : Caught → Option Nat
  | .axios e => e.status
  | .typeError => none

/-- Reads `error.response?.data?.detail` on a caught value; `.undefined` when a link of
the chain is missing. -/
def Caught.detail : Caught → JsVal
  | .axios e =>
    match e.response with
    | none => .undefined
    | some r =>
      match r.data with
      | none => .undefined
      | some data => (getKey "detail" data).getD .undefined
  | .typeError => .undefined

/-- Truthiness of a primitive value. -/
def JsVal.truthy : JsVal → Bool
  | .undefined => false
  | .null => false
  | .bool b => b
  | .num n => decide (n ≠ 0)
  | .str s => decide (s ≠ "")

/-- Evaluates `detail || fallback`, as the text that `new Error(...)` gives it. -/
def messageOr (detail : JsVal) (fallback : String) : String :=
  if detail.truthy then detail.toJsString else fallback

/-- Reads property `k` of a body object, `.undefined` when it is absent. -/
def field (k : String) (data : List (String × JsVal)) : JsVal :=
  (getKey k data).getD .undefined

/-- Models `checkAuth`, the effect run on mount (AuthContext.js lines 23-39). -/
def checkAuth (svc : AuthService) (w : AuthWorld) : Option AuthWorld :=
  let token := w.browser.storage.getItem "access_token"
  if truthy token then
    match svc.getCurrentUser w.browser with
    | none => none
    | some (.ok userData, b1) =>
      some { state := { w.state with user := userData, loading := false }, browser := b1 }
    | some (.error error, b1) =>
      let b2 := if error.status = some 401 then removeTokens b1 else b1
      some { state := { w.state with loading := false }, browser := b2 }
  else some { w with state := { w.state with loading := false } }

/-- The `catch` and `finally` blocks of `login` (lines 56-62), run on the world in which
the error was caught. -/
def loginCatch (error : Caught) (w : AuthWorld) : Except NewError Resolved × AuthWorld :=
  let errorMessage := messageOr error.detail "Error al iniciar sesión"
  (.error { message := errorMessage },
    { w with state := { w.state with error := some errorMessage, loading := false } })

/-- Models `login` (AuthContext.js lines 44-63). -/
def login (svc : AuthService) (email password : String) (w : AuthWorld) :
    Option (Except NewError Resolved × AuthWorld) :=
  let w1 : AuthWorld := { w with state := { w.state with error := none, loading := true } }
  match svc.login email password w1.browser with
  | none => none
  | some (.error error, b1) => some (loginCatch (.axios error) { w1 with browser := b1 })
  | some (.ok none, b1) => some (loginCatch .typeError { w1 with browser := b1 })
  | some (.ok (some response), b1) =>
    let b2 : World :=
      { b1 with
        storage :=
          (b1.storage.setItem "access_token"
            (field "access_token" response).toJsString).setItem
            "refresh_token" (field "refresh_token" response).toJsString }
    match svc.getCurrentUser b2 with
    | none => none
    | some (.error error, b3) => some (loginCatch (.axios error) { w1 with browser := b3 })
    | some (.ok userData, b3) =>
      some (.ok .success,
        { state := { w1.state with user := userData, loading := false }, browser := b3 })

/-- Models `register` (AuthContext.js lines 65-76). -/
def register (svc : AuthService) (username email password : String) (w : AuthWorld) :
    Option (Except NewError Resolved × AuthWorld) :=
  let w1 : AuthWorld := { w with state := { w.state with error := none } }
  let userData : List (String × JsVal) :=
    [("username", .str username), ("email", .str email), ("password", .str password)]
  match svc.register userData w1.browser with
  | none => none
  | some (.ok _, b1) => some (.ok .success, { w1 with browser := b1 })
  | some (.error error, b1) =>
    let errorMessage := messageOr (Caught.axios error).detail "Error al registrar usuario"
    some (.error { message := errorMessage },
      { state := { w1.state with error := some errorMessage }, browser := b1 })

/-- The `finally` block shared by `logout` and `logoutAll` (lines 83-88 and 96-101). -/
def logoutFinally (state : AuthState) (b : World) : AuthWorld :=
  { state := { state with user := none, error := none }, browser := removeTokens b }

/-- Models `logout` (AuthContext.js lines 78-89): the function resolves whether the
service call resolves or rejects. -/
def logout (svc : AuthService) (w : AuthWorld) : Option AuthWorld :=
  match svc.logout w.browser with
  | none => none
  | some (.ok _, b1) => some (logoutFinally w.state b1)
  | some (.error _, b1) => some (logoutFinally w.state b1)

/-- Models `logoutAll` (AuthContext.js lines 91-102). -/
def logoutAll (svc : AuthService) (w : AuthWorld) : Option AuthWorld :=
  match svc.logoutAll w.browser with
  | none => none
  | some (.ok _, b1) => some (logoutFinally w.state b1)
  | some (.error _, b1) => some (logoutFinally w.state b1)

/-! ## Concrete servers and browsers for the statements about authentication -/

/-- The answer of `/token` to valid credentials. -/
def tokenPair : Response :=
  { status := 200, headers := [],
    data := some
      [("access_token", .str "access-token"), ("refresh_token", .str "refresh-token"),
        ("token_type", .str "bearer")] }

/-- The profile of the test user. -/
def testProfile : List (String × JsVal) := [("id", .num 1), ("email", .str "test@example.com")]

/-- A 200 response without a body. -/
def noContent : Response := { status := 200, headers := [], data := none }

/-- The answer of `/token` to wrong credentials. -/
def invalidCredentials : Response :=
  { status := 401, headers := [], data := some [("detail", .str "Invalid credentials")] }

/-- A server on which every endpoint of the authentication flow succeeds. -/
def authServer : Server := fun _ c =>
  if c.url = "/token" then .response tokenPair
  else if c.url = "/me" then .response { status := 200, headers := [], data := some testProfile }
  else if c.url = "/register" then
    .response { status := 200, headers := [], data := some testProfile }
  else .response noContent

/-- A server that exchanges the credentials and then fails to serve the profile. -/
def profileDownServer : Server := fun _ c =>
  if c.url = "/token" then .response tokenPair else .response serverFailure

/-- A server that rejects the credentials. -/
def rejectingServer : Server := fun _ _ => .response invalidCredentials

/-- A server for which the stored access token has expired: it answers 401 until a
refresh call has been made, accepts the refresh token, and serves every request after
the refresh. -/
def expiredAccessServer : Server := fun sent c =>
  if c.url = "/refresh" then .response refreshed
  else if sent.any (fun p => p.url = "/refresh") then .response noContent
  else .response unauthorized

/-- A browser with an empty storage. -/
def emptyBrowser : World := { storage := [], navigations := [], sent := [] }

/-- A browser that holds both tokens. -/
def tokenBrowser : World :=
  { storage := [("access_token", "old-token"), ("refresh_token", "refresh-token")],
    navigations := [], sent := [] }

/-- The auth provider of a visitor who is not logged in, after the start-up check. -/
def anonymous : AuthWorld :=
  { state := { user := none, loading := false, error := none }, browser := emptyBrowser }

/-- The auth provider at mount in a browser that holds both tokens. -/
def returning : AuthWorld := { state := AuthState.initial, browser := tokenBrowser }

/-- The auth provider of a logged-in user whose last action left an error message. -/
def signedIn : AuthWorld :=
  { state := { user := some testProfile, loading := false, error := some "Test error" },
    browser := tokenBrowser }

/-- The storage after `login` has written the two tokens of a response. -/
def withTokens (b : World) (accessToken refreshToken : String) : World :=
  { b with
    storage := (b.storage.setItem "access_token" accessToken).setItem "refresh_token"
      refreshToken }

/-- The message `login` derives from a rejection of the service. -/
def loginMessage (e : AxiosError) : String :=
  messageOr (Caught.axios e).detail "Error al iniciar sesión"

/-- A mock of `authService` in the manner of the test-suite: the given profile call,
every other method as in `api.js` with the network down. -/
def mockProfileService (getCurrentUser : ServiceCall Body) : AuthService :=
  { authServiceOn (api 1 offline) with getCurrentUser := getCurrentUser }

/-- A profile call that rejects with a 401, as in the test `debe manejar error de
autenticación al cargar`. -/
def rejectProfile401 : ServiceCall Body := fun b =>
  some (.error { config := getConfig "/me", response := some unauthorized }, b)

/-- The body `register` of the auth context sends. -/
def registerData (username email password : String) : List (String × JsVal) :=
  [("username", .str username), ("email", .str email), ("password", .str password)]

/-- The logout call as it reaches the network: `api.post('/logout', {token})` after the
request interceptor. -/
def logoutRequest (st : Storage) (refreshToken : String) : Config :=
  requestInterceptor st (postConfig "/logout" [("token", .str refreshToken)])

/-- A rejection with status 500 as axios produces it. -/
def serverDown : ServiceError :=
  { message := some "Request failed with status code 500",
    response := some { status := some 500, headers := some [], detail := none } }

/-- A task service that rejects its first three calls with the 429 of the test-suite,
its fourth with a 500 and its fifth with the 429 again, and then succeeds. -/
def limitedDownLimitedOk : GetTasks := fun calls =>
  if calls.length ≤ 3 then { latency := 20, result := .error tooManyRequests }
  else if calls.length = 4 then { latency := 20, result := .error serverDown }
  else if calls.length = 5 then { latency := 20, result := .error tooManyRequests }
  else { latency := 20, result := .ok onePage }

/-- A mutating method that rejects its first call with the 429 of the test-suite and
every later call with a 500. -/
def mutationLimitedThenDown {α : Type} : Mutation α := fun calls =>
  if calls.length ≤ 1 then { latency := 20, result := .error tooManyRequests }
  else { latency := 20, result := .error serverDown }

/-- A 429 rejection whose `retry-after` header asks for 3000000 seconds, a wait of
3000000000 ms, which is beyond the range of the timer. -/
def retryMuchLater : ServiceError :=
  { message := none,
    response := some
      { status := some 429, headers := some [("retry-after", "3000000")],
        detail := some "Too many requests" } }

/-! ## Keyed objects: reads after writes -/

theorem getKey_setKey_self {β : Type} (k : String) (v : β) (l : List (String × β)) :
    getKey k (setKey k v l) = some v := by
  induction l with
  | nil => simp [setKey, getKey]
  | cons p rest ih =>
    obtain ⟨k1, v1⟩ := p
    by_cases h : k1 = k
    · simp [setKey, getKey, h]
    · simp [setKey, getKey, h, ih]

theorem getKey_setKey_of_ne {β : Type} (k k2 : String) (v : β) (l : List (String × β))
    (hne : k2 ≠ k) : getKey k2 (setKey k v l) = getKey k2 l := by
  induction l with
  | nil => simp [setKey, getKey, Ne.symm hne]
  | cons p rest ih =>
    obtain ⟨k1, v1⟩ := p
    by_cases h : k1 = k
    · subst h
      simp [setKey, getKey, Ne.symm hne]
    · by_cases h2 : k1 = k2
      · subst h2
        simp [setKey, getKey, h]
      · simp [setKey, getKey, h, h2, ih]

theorem setKey_setKey_self {β : Type} (k : String) (v : β) (l : List (String × β)) :
    setKey k v (setKey k v l) = setKey k v l := by
  induction l with
  | nil => simp [setKey]
  | cons p rest ih =>
    obtain ⟨k1, v1⟩ := p
    by_cases h : k1 = k
    · simp [setKey, h]
    · simp [setKey, h, ih]

theorem getKey_removeKey_self {β : Type} (k : String) (l : List (String × β)) :
    getKey k (removeKey k l) = none := by
  induction l with
  | nil => simp [removeKey, getKey]
  | cons p rest ih =>
    obtain ⟨k1, v1⟩ := p
    by_cases h : k1 = k
    · simp [removeKey, h, ih]
    · simp [removeKey, getKey, h, ih]

theorem getKey_removeKey_of_ne {β : Type} (k k2 : String) (l : List (String × β))
    (hne : k2 ≠ k) : getKey k2 (removeKey k l) = getKey k2 l := by
  induction l with
  | nil => simp [removeKey, getKey]
  | cons p rest ih =>
    obtain ⟨k1, v1⟩ := p
    by_cases h : k1 = k
    · subst h
      simp [removeKey, getKey, Ne.symm hne, ih]
    · by_cases h2 : k1 = k2
      · subst h2
        simp [removeKey, getKey, h]
      · simp [removeKey, getKey, h, h2, ih]

theorem truthy_some {s : String} (h : s ≠ "") : truthy (some s) = true := by
  simp [truthy, h]

/-! ## The request interceptor -/

theorem requestInterceptor_retry (st : Storage) (config : Config) :
    (requestInterceptor st config)._retry = config._retry := by
  unfold requestInterceptor
  by_cases h : truthy (st.getItem "access_token") = true <;> simp [h]

/-- On a config that already carries `Bearer t`, with `t` the stored access token (or
with a falsy token stored), the request interceptor changes nothing. -/
theorem requestInterceptor_bearer_fixed (st : Storage) (config : Config) (t : String)
    (hst : st.getItem "access_token" = some t) :
    requestInterceptor st
        { config with headers := setKey "Authorization" ("Bearer " ++ t) config.headers } =
      { config with headers := setKey "Authorization" ("Bearer " ++ t) config.headers } := by
  unfold requestInterceptor
  by_cases h : truthy (st.getItem "access_token") = true
  · simp [h, hst, setKey_setKey_self]
  · simp [h]

theorem adapter_sent (srv : Server) (config : Config) (w : World) :
    (adapter srv config w).2.sent = w.sent ++ [config] ∧
      (adapter srv config w).2.storage = w.storage ∧
      (adapter srv config w).2.navigations = w.navigations := by
  unfold adapter
  cases srv w.sent config with
  | response r => by_cases h : 200 ≤ r.status ∧ r.status < 300 <;> simp [h]
  | networkError => simp

theorem adapter_error_config (srv : Server) (config : Config) (w w1 : World)
    (e : AxiosError) (h : adapter srv config w = (.error e, w1)) : e.config = config := by
  unfold adapter at h
  cases hs : srv w.sent config with
  | response r =>
    rw [hs] at h
    by_cases hok : 200 ≤ r.status ∧ r.status < 300
    · simp [hok] at h
    · simp [hok] at h
      rw [← h.1]
  | networkError =>
    rw [hs] at h
    simp at h
    rw [← h.1]

/-- A failure on a request that carries the retry marker is rejected as it is. -/
theorem responseRejected_retried (client : Client) (err : AxiosError) (w : World)
    (h : err.config._retry = true) :
    responseRejected client err w = some (.error err, w) := by
  simp [responseRejected, h]

/-- Sending a request that carries the retry marker: one pass through the request
interceptor and the transport, whose outcome is the outcome of the call. -/
theorem api_retried (fuel : Nat) (srv : Server) (config : Config) (w : World)
    (h : config._retry = true) :
    api (fuel + 1) srv config w =
      some (adapter srv (requestInterceptor w.storage config) w) := by
  unfold api
  rcases hres : adapter srv (requestInterceptor w.storage config) w with ⟨out, w1⟩
  cases out with
  | ok r => simp [responseFulfilled]
  | error e =>
    have hc := adapter_error_config _ _ _ _ _ hres
    have hr : e.config._retry = true := by rw [hc, requestInterceptor_retry]; exact h
    simp [responseRejected_retried _ _ _ hr]

/-- The refresh call settles as fulfilled when the server answers it with a 2xx
response. -/
theorem api_refresh_ok (fuel : Nat) (srv : Server) (w : World) (rt : String)
    (resp : Response)
    (hsrv : srv w.sent (refreshRequest w.storage rt) = .response resp)
    (hok : 200 ≤ resp.status ∧ resp.status < 300) :
    api (fuel + 1) srv (postConfig "/refresh" [("token", .str rt)]) w =
      some (.ok resp, { w with sent := w.sent ++ [refreshRequest w.storage rt] }) := by
  unfold refreshRequest at hsrv
  simp [api, adapter, hsrv, hok, responseFulfilled, refreshRequest]

/-- The handler on a first 401 with a stored refresh token and a successful refresh:
the new token is stored and the outcome is that of one pass of the replay through the
transport. -/
theorem responseRejected_refresh_ok (fuel : Nat) (srv : Server) (err : AxiosError)
    (w : World) (rt T : String) (resp : Response) (data : List (String × JsVal))
    (h401 : err.status = some 401) (hun : err.config._retry = false)
    (hrt : w.storage.getItem "refresh_token" = some rt) (hrt0 : rt ≠ "")
    (hsrv : srv w.sent (refreshRequest w.storage rt) = .response resp)
    (hok : 200 ≤ resp.status ∧ resp.status < 300)
    (hdata : resp.data = some data)
    (hT : getKey "access_token" data = some (.str T)) :
    responseRejected (api (fuel + 1) srv) err w =
      some (adapter srv (replayRequest err.config T)
        { w with
          storage := w.storage.setItem "access_token" T,
          sent := w.sent ++ [refreshRequest w.storage rt] }) := by
  have hcall := api_refresh_ok fuel srv w rt resp hsrv hok
  have hst : Storage.getItem (Storage.setItem w.storage "access_token" T) "access_token"
      = some T := getKey_setKey_self _ _ _
  have hfix := requestInterceptor_bearer_fixed (Storage.setItem w.storage "access_token" T)
    { err.config with _retry := true } T hst
  simp only [responseRejected, h401, hun, hrt, truthy_some hrt0, Option.getD_some, and_self,
    if_true, hcall, hdata, hT, JsVal.toJsString]
  rw [api_retried _ _ _ _ rfl]
  simp only [replayRequest]
  rw [hfix]

/-! ## The refresh protocol -/

/-- C1: in the response-error handler, for a request not yet marked retried that
receives a 401 while a refresh token is stored, when POST /refresh succeeds with access
token `T`: `T` is stored under `access_token` and every other storage key (so
`refresh_token`) is unchanged; exactly two requests are sent, the refresh call and then
the original request once, marked retried and with `Authorization = Bearer T`; and the
caller receives the outcome of that replay, its response or its failure. -/
theorem refresh_success_stores_token_and_replays_once (fuel : Nat) (srv : Server)
    (err : AxiosError) (w : World) (rt T : String) (resp : Response)
    (data : List (String × JsVal))
    (h401 : err.status = some 401) (hun : err.config._retry = false)
    (hrt : w.storage.getItem "refresh_token" = some rt) (hrt0 : rt ≠ "")
    (hsrv : srv w.sent (refreshRequest w.storage rt) = .response resp)
    (hok : 200 ≤ resp.status ∧ resp.status < 300)
    (hdata : resp.data = some data)
    (hT : getKey "access_token" data = some (.str T)) :
    ∃ (out : Outcome) (w1 : World),
      responseRejected (api (fuel + 1) srv) err w = some (out, w1) ∧
      w1.storage.getItem "access_token" = some T ∧
      (∀ k, k ≠ "access_token" → w1.storage.getItem k = w.storage.getItem k) ∧
      w1.sent = w.sent ++ [refreshRequest w.storage rt, replayRequest err.config T] ∧
      getKey "Authorization" (replayRequest err.config T).headers = some ("Bearer " ++ T) ∧
      (∀ k, k ≠ "Authorization" →
        getKey k (replayRequest err.config T).headers = getKey k err.config.headers) ∧
      (replayRequest err.config T).method = err.config.method ∧
      (replayRequest err.config T).url = err.config.url ∧
      (replayRequest err.config T).data = err.config.data ∧
      (replayRequest err.config T).params = err.config.params ∧
      w1.navigations = w.navigations ∧
      out =
        (match srv (w.sent ++ [refreshRequest w.storage rt]) (replayRequest err.config T) with
          | .response r =>
            if 200 ≤ r.status ∧ r.status < 300 then .ok r
            else .error { config := replayRequest err.config T, response := some r }
          | .networkError =>
            .error { config := replayRequest err.config T, response := none }) := by
  have h := responseRejected_refresh_ok fuel srv err w rt T resp data h401 hun hrt hrt0 hsrv
    hok hdata hT
  have hs := adapter_sent srv (replayRequest err.config T)
    { w with
      storage := w.storage.setItem "access_token" T,
      sent := w.sent ++ [refreshRequest w.storage rt] }
  refine ⟨_, _, by rw [h], ?_, ?_, ?_, ?_, ?_, rfl, rfl, rfl, rfl, ?_, ?_⟩
  · rw [hs.2.1]
    exact getKey_setKey_self _ _ _
  · intro k hk
    rw [hs.2.1]
    exact getKey_setKey_of_ne _ _ _ _ hk
  · rw [hs.1]
    simp
  · exact getKey_setKey_self _ _ _
  · intro k hk
    exact getKey_setKey_of_ne _ _ _ _ hk
  · rw [hs.2.2]
  · unfold adapter
    cases srv (w.sent ++ [refreshRequest w.storage rt]) (replayRequest err.config T) with
    | response r => by_cases hr : 200 ≤ r.status ∧ r.status < 300 <;> simp [hr]
    | networkError => simp

/-- Witness of C1 on `refreshingServer`. -/
theorem refresh_success_stores_token_and_replays_once_witness :
    ∃ (out : Outcome) (w1 : World),
      responseRejected (api 1 refreshingServer) listError401 loggedInWorld = some (out, w1) ∧
      w1.storage.getItem "access_token" = some "new-token" ∧
      (∀ k, k ≠ "access_token" →
        w1.storage.getItem k = loggedInWorld.storage.getItem k) ∧
      w1.sent = loggedInWorld.sent ++
        [refreshRequest loggedInWorld.storage "refresh-token",
          replayRequest listError401.config "new-token"] ∧
      getKey "Authorization" (replayRequest listError401.config "new-token").headers =
        some ("Bearer " ++ "new-token") ∧
      (∀ k, k ≠ "Authorization" →
        getKey k (replayRequest listError401.config "new-token").headers =
          getKey k listError401.config.headers) ∧
      (replayRequest listError401.config "new-token").method = listError401.config.method ∧
      (replayRequest listError401.config "new-token").url = listError401.config.url ∧
      (replayRequest listError401.config "new-token").data = listError401.config.data ∧
      (replayRequest listError401.config "new-token").params = listError401.config.params ∧
      w1.navigations = loggedInWorld.navigations ∧
      out =
        (match refreshingServer
            (loggedInWorld.sent ++ [refreshRequest loggedInWorld.storage "refresh-token"])
            (replayRequest listError401.config "new-token") with
          | .response r =>
            if 200 ≤ r.status ∧ r.status < 300 then .ok r
            else .error
              { config := replayRequest listError401.config "new-token", response := some r }
          | .networkError =>
            .error
              { config := replayRequest listError401.config "new-token", response := none }) :=
  refresh_success_stores_token_and_replays_once 0 refreshingServer listError401
    loggedInWorld "refresh-token" "new-token" refreshed [("access_token", .str "new-token")]
    (by decide) (by decide) (by decide) (by decide) (by decide) (by decide) (by decide)
    (by decide)

/-- C2: a request that carries the retry marker never enters the refresh protocol
again. Any failure on it (a 401 in particular) is rejected to the caller as it is, with
no request sent, no storage change and no navigation, whatever the client would do; and
when the replay that follows a successful refresh is itself answered 401, that 401 is
rejected to the caller after exactly the one refresh call and the one replay, with the
storage as the refresh left it and no navigation. -/
theorem retried_request_never_refreshes_again :
    (∀ (client : Client) (err : AxiosError) (w : World), err.config._retry = true →
      responseRejected client err w = some (.error err, w)) ∧
    (∀ (fuel : Nat) (srv : Server) (err : AxiosError) (w : World) (rt T : String)
      (resp r401 : Response) (data : List (String × JsVal)),
      err.status = some 401 → err.config._retry = false →
      w.storage.getItem "refresh_token" = some rt → rt ≠ "" →
      srv w.sent (refreshRequest w.storage rt) = .response resp →
      (200 ≤ resp.status ∧ resp.status < 300) →
      resp.data = some data →
      getKey "access_token" data = some (.str T) →
      srv (w.sent ++ [refreshRequest w.storage rt]) (replayRequest err.config T) =
        .response r401 →
      r401.status = 401 →
      responseRejected (api (fuel + 1) srv) err w =
        some (.error { config := replayRequest err.config T, response := some r401 },
          { storage := w.storage.setItem "access_token" T,
            navigations := w.navigations,
            sent := w.sent ++ [refreshRequest w.storage rt, replayRequest err.config T] })) := by
  refine ⟨fun client err w h => responseRejected_retried client err w h, ?_⟩
  intro fuel srv err w rt T resp r401 data h401 hun hrt hrt0 hsrv hok hdata hT hreplay hst
  rw [responseRejected_refresh_ok fuel srv err w rt T resp data h401 hun hrt hrt0 hsrv hok
    hdata hT]
  simp [adapter, hreplay, hst]

/-- Witness of C2: a marked request answered 401, and the replay answered 401 by
`stillUnauthorizedServer`. -/
theorem retried_request_never_refreshes_again_witness :
    responseRejected (api 1 always401) (markRetried listError401) loggedInWorld =
        some (.error (markRetried listError401), loggedInWorld) ∧
      responseRejected (api 1 stillUnauthorizedServer) listError401 loggedInWorld =
        some (.error
            { config := replayRequest listError401.config "new-token",
              response := some unauthorized },
          { storage := loggedInWorld.storage.setItem "access_token" "new-token",
            navigations := loggedInWorld.navigations,
            sent := loggedInWorld.sent ++
              [refreshRequest loggedInWorld.storage "refresh-token",
                replayRequest listError401.config "new-token"] }) :=
  ⟨retried_request_never_refreshes_again.1 (api 1 always401) (markRetried listError401)
      loggedInWorld (by decide),
    retried_request_never_refreshes_again.2 0 stillUnauthorizedServer listError401
      loggedInWorld "refresh-token" "new-token" refreshed unauthorized
      [("access_token", .str "new-token")]
      (by decide) (by decide) (by decide) (by decide) (by decide) (by decide) (by decide)
      (by decide) (by decide) (by decide)⟩

/-- The refresh call settles as rejected, with nothing but the request sent, when the
server answers it with a failure other than 401. -/
theorem api_refresh_fails (fuel : Nat) (srv : Server) (w : World) (rt : String)
    (hfail : srv w.sent (refreshRequest w.storage rt) = .networkError ∨
      ∃ r, srv w.sent (refreshRequest w.storage rt) = .response r ∧
        ¬ (200 ≤ r.status ∧ r.status < 300) ∧ r.status ≠ 401) :
    ∃ e, api (fuel + 1) srv (postConfig "/refresh" [("token", .str rt)]) w =
      some (.error e, { w with sent := w.sent ++ [refreshRequest w.storage rt] }) := by
  unfold refreshRequest at hfail
  rcases hfail with h | ⟨r, h, hnok, hne⟩
  · exact ⟨{ config := refreshRequest w.storage rt, response := none }, by
      simp [api, adapter, h, responseRejected, AxiosError.status, refreshRequest]⟩
  · exact ⟨{ config := refreshRequest w.storage rt, response := some r }, by
      simp [api, adapter, h, hnok, responseRejected, AxiosError.status, hne, refreshRequest]⟩

/-- When the refresh call settles as rejected, the handler runs the catch block on the
world the call left and rejects with the original error. -/
theorem responseRejected_refresh_rejected (client : Client) (err refreshError : AxiosError)
    (w w1 : World) (rt : String)
    (h401 : err.status = some 401) (hun : err.config._retry = false)
    (hrt : w.storage.getItem "refresh_token" = some rt) (hrt0 : rt ≠ "")
    (hfail : client (postConfig "/refresh" [("token", .str rt)]) w =
      some (.error refreshError, w1)) :
    responseRejected client err w = some (.error (markRetried err), refreshCatch w1) := by
  simp [responseRejected, h401, hun, hrt, truthy_some hrt0, hfail, markRetried]

/-- The part of the refresh-failure rule that the code meets: when the refresh call
fails with a network error or with an HTTP error status other than 401, both tokens are
removed from storage, `/login` is assigned to the location exactly once, one request
(the refresh call) has been sent, and the original error is rejected. -/
theorem refresh_failure_other_than_401_clears_tokens (fuel : Nat) (srv : Server)
    (err : AxiosError) (w : World) (rt : String)
    (h401 : err.status = some 401) (hun : err.config._retry = false)
    (hrt : w.storage.getItem "refresh_token" = some rt) (hrt0 : rt ≠ "")
    (hfail : srv w.sent (refreshRequest w.storage rt) = .networkError ∨
      ∃ r, srv w.sent (refreshRequest w.storage rt) = .response r ∧
        ¬ (200 ≤ r.status ∧ r.status < 300) ∧ r.status ≠ 401) :
    ∃ w1, responseRejected (api (fuel + 1) srv) err w = some (.error (markRetried err), w1) ∧
      w1.storage.getItem "access_token" = none ∧
      w1.storage.getItem "refresh_token" = none ∧
      w1.navigations = w.navigations ++ ["/login"] ∧
      w1.sent = w.sent ++ [refreshRequest w.storage rt] := by
  obtain ⟨e, he⟩ := api_refresh_fails fuel srv w rt hfail
  refine ⟨_, responseRejected_refresh_rejected _ err e w _ rt h401 hun hrt hrt0 he, ?_, ?_,
    rfl, rfl⟩
  · show getKey "access_token" (removeKey "refresh_token" (removeKey "access_token" _)) = none
    rw [getKey_removeKey_of_ne _ _ _ (by decide)]
    exact getKey_removeKey_self _ _
  · exact getKey_removeKey_self _ _

/-- C3, at its failing input: the refresh call is answered 401 and the refresh call
that the handler then sends for it is answered 500. Two refresh calls are sent and
`/login` is assigned to the location twice, not once. -/
theorem refresh_answered_401_navigates_twice (fuel : Nat) :
    responseRejected (api (fuel + 2) refresh401ThenFailure) listError401 loggedInWorld =
      some (.error (markRetried listError401),
        { storage := [],
          navigations := ["/login", "/login"],
          sent := loggedInWorld.sent ++
            [refreshRequest loggedInWorld.storage "refresh-token",
              refreshRequest loggedInWorld.storage "refresh-token"] }) := by
  rfl

/-- C4, counterexample: with the network down, the refresh call is rejected with a
network error of the refresh request, and the caller of the original request receives
the 401 error of the original request instead. -/
theorem refresh_failure_is_not_what_the_caller_receives :
    api 1 offline (postConfig "/refresh" [("token", .str "refresh-token")]) loggedInWorld =
        some (.error
            { config := refreshRequest loggedInWorld.storage "refresh-token",
              response := none },
          { loggedInWorld with
            sent := loggedInWorld.sent ++
              [refreshRequest loggedInWorld.storage "refresh-token"] }) ∧
      responseRejected (api 1 offline) listError401 loggedInWorld =
        some (.error (markRetried listError401),
          refreshCatch
            { loggedInWorld with
              sent := loggedInWorld.sent ++
                [refreshRequest loggedInWorld.storage "refresh-token"] }) ∧
      markRetried listError401 ≠
        { config := refreshRequest loggedInWorld.storage "refresh-token", response := none } := by
  decide

/-- C4, amended: when the refresh call fails, whatever its failure is, the error
delivered to the caller of the original request is the original 401 error (its request
now marked as retried), after the catch block has run on the world the refresh call
left. -/
theorem refresh_failure_delivers_original_error (client : Client)
    (err refreshError : AxiosError) (w w1 : World) (rt : String)
    (h401 : err.status = some 401) (hun : err.config._retry = false)
    (hrt : w.storage.getItem "refresh_token" = some rt) (hrt0 : rt ≠ "")
    (hfail : client (postConfig "/refresh" [("token", .str rt)]) w =
      some (.error refreshError, w1)) :
    responseRejected client err w = some (.error (markRetried err), refreshCatch w1) ∧
      (markRetried err).response = err.response ∧
      (markRetried err).config = { err.config with _retry := true } :=
  ⟨responseRejected_refresh_rejected client err refreshError w w1 rt h401 hun hrt hrt0 hfail,
    rfl, rfl⟩

/-- Witness of the amended C4 with the network down. -/
theorem refresh_failure_delivers_original_error_witness :
    responseRejected (api 1 offline) listError401 loggedInWorld =
        some (.error (markRetried listError401),
          refreshCatch
            { loggedInWorld with
              sent := loggedInWorld.sent ++
                [refreshRequest loggedInWorld.storage "refresh-token"] }) ∧
      (markRetried listError401).response = listError401.response ∧
      (markRetried listError401).config = { listError401.config with _retry := true } :=
  refresh_failure_delivers_original_error (api 1 offline) listError401
    { config := refreshRequest loggedInWorld.storage "refresh-token", response := none }
    loggedInWorld
    { loggedInWorld with
      sent := loggedInWorld.sent ++ [refreshRequest loggedInWorld.storage "refresh-token"] }
    "refresh-token" (by decide) (by decide) (by decide) (by decide) (by decide)

/-- Against a server that answers 401 to everything, sending an unmarked request never
settles while a refresh token is stored: no amount of fuel suffices. -/
theorem api_always401_diverges (fuel : Nat) :
    ∀ (config : Config) (w : World), config._retry = false →
      truthy (w.storage.getItem "refresh_token") = true →
      api fuel always401 config w = none := by
  induction fuel with
  | zero => intro config w _ _; rfl
  | succ n ih =>
    intro config w hc ht
    have hr : (requestInterceptor w.storage config)._retry = false := by
      rw [requestInterceptor_retry]; exact hc
    have hcall := ih (postConfig "/refresh"
      [("token", .str ((w.storage.getItem "refresh_token").getD ""))])
      { w with sent := w.sent ++ [requestInterceptor w.storage config] } rfl ht
    simp [api, adapter, always401, responseRejected, AxiosError.status, unauthorized, hr, ht,
      hcall]

/-- C5, at its failing input: the server answers 401 to the refresh call as well. The
handling of the one 401 never settles: every refresh call sent through the intercepted
client is answered 401 and handled by a further refresh call, so for every fuel the
computation is still unfinished. -/
theorem refresh_answered_401_never_settles (fuel : Nat) :
    responseRejected (api fuel always401) listError401 loggedInWorld = none := by
  have hcall := api_always401_diverges fuel
    (postConfig "/refresh" [("token", .str "refresh-token")]) loggedInWorld rfl (by decide)
  have hrt : loggedInWorld.storage.getItem "refresh_token" = some "refresh-token" := by decide
  have hst : listError401.status = some 401 := by decide
  have hun : listError401.config._retry = false := by decide
  simp [responseRejected, hst, hun, hrt, truthy, hcall]

/-- C6: a 401 on an unretried request while no refresh token is stored is rejected with
the original error, the same response and the same request, which now carries the retry
marker; the client is not called (no request is sent, to `/refresh` or elsewhere), and
storage and navigation are untouched. -/
theorem no_refresh_token_rejects_original_error (client : Client) (err : AxiosError)
    (w : World)
    (h401 : err.status = some 401) (hun : err.config._retry = false)
    (hno : w.storage.getItem "refresh_token" = none) :
    ∃ e, responseRejected client err w = some (.error e, w) ∧
      e.response = err.response ∧
      e.config = { err.config with _retry := true } := by
  refine ⟨markRetried err, ?_, rfl, rfl⟩
  simp [responseRejected, h401, hun, hno, truthy, markRetried]

/-- Witness of C6 in a browser that holds no refresh token. -/
theorem no_refresh_token_rejects_original_error_witness :
    ∃ e, responseRejected (api 1 refreshingServer) listError401 accessOnlyWorld =
        some (.error e, accessOnlyWorld) ∧
      e.response = listError401.response ∧
      e.config = { listError401.config with _retry := true } :=
  no_refresh_token_rejects_original_error (api 1 refreshingServer) listError401
    accessOnlyWorld (by decide) (by decide) (by decide)

/-! ## Interceptors as filters -/

/-- C7: when a non-empty access token `t` is stored under `access_token`, the request
interceptor returns the config with `headers.Authorization = "Bearer " + t`; every
other header and every other field of the config are unchanged. -/
theorem requestInterceptor_attaches_bearer (st : Storage) (config : Config) (t : String)
    (hst : st.getItem "access_token" = some t) (hne : t ≠ "") :
    requestInterceptor st config =
        { config with headers := setKey "Authorization" ("Bearer " ++ t) config.headers } ∧
      getKey "Authorization" (requestInterceptor st config).headers = some ("Bearer " ++ t) ∧
      (∀ k, k ≠ "Authorization" →
        getKey k (requestInterceptor st config).headers = getKey k config.headers) ∧
      (requestInterceptor st config).method = config.method ∧
      (requestInterceptor st config).url = config.url ∧
      (requestInterceptor st config).data = config.data ∧
      (requestInterceptor st config).params = config.params ∧
      (requestInterceptor st config)._retry = config._retry := by
  have h : requestInterceptor st config =
      { config with headers := setKey "Authorization" ("Bearer " ++ t) config.headers } := by
    simp [requestInterceptor, hst, truthy_some hne]
  rw [h]
  refine ⟨rfl, getKey_setKey_self _ _ _, ?_, rfl, rfl, rfl, rfl, rfl⟩
  intro k hk
  exact getKey_setKey_of_ne _ _ _ _ hk

/-- Witness of C7 on the task listing request with `old-token` stored. -/
theorem requestInterceptor_attaches_bearer_witness :
    requestInterceptor loggedInWorld.storage listRequest =
        { listRequest with
          headers := setKey "Authorization" ("Bearer " ++ "old-token") listRequest.headers } ∧
      getKey "Authorization" (requestInterceptor loggedInWorld.storage listRequest).headers =
        some ("Bearer " ++ "old-token") ∧
      (∀ k, k ≠ "Authorization" →
        getKey k (requestInterceptor loggedInWorld.storage listRequest).headers =
          getKey k listRequest.headers) ∧
      (requestInterceptor loggedInWorld.storage listRequest).method = listRequest.method ∧
      (requestInterceptor loggedInWorld.storage listRequest).url = listRequest.url ∧
      (requestInterceptor loggedInWorld.storage listRequest).data = listRequest.data ∧
      (requestInterceptor loggedInWorld.storage listRequest).params = listRequest.params ∧
      (requestInterceptor loggedInWorld.storage listRequest)._retry = listRequest._retry :=
  requestInterceptor_attaches_bearer loggedInWorld.storage listRequest "old-token"
    (by decide) (by decide)

/-- C8: while no access token is stored, the request interceptor returns the config
unchanged, the request handed to the network is that very config, and a config built
without an `Authorization` header reaches the network without one. -/
theorem requestInterceptor_without_token (st : Storage) (config : Config)
    (hst : st.getItem "access_token" = none) :
    requestInterceptor st config = config ∧
      (∀ (srv : Server) (w : World), w.storage = st →
        (adapter srv (requestInterceptor w.storage config) w).2.sent = w.sent ++ [config]) ∧
      (getKey "Authorization" config.headers = none →
        getKey "Authorization" (requestInterceptor st config).headers = none) := by
  have h : requestInterceptor st config = config := by
    simp [requestInterceptor, hst, truthy]
  refine ⟨h, ?_, ?_⟩
  · intro srv w hw
    rw [hw, h]
    exact (adapter_sent srv config w).1
  · intro hc
    rw [h]
    exact hc

/-- Witness of C8 on the task listing request with an empty storage. -/
theorem requestInterceptor_without_token_witness :
    requestInterceptor [] listRequest = listRequest ∧
      (adapter refreshingServer (requestInterceptor [] listRequest)
        { storage := [], navigations := [], sent := [] }).2.sent = [] ++ [listRequest] ∧
      getKey "Authorization" (requestInterceptor [] listRequest).headers = none :=
  ⟨(requestInterceptor_without_token [] listRequest (by decide)).1,
    (requestInterceptor_without_token [] listRequest (by decide)).2.1 refreshingServer
      { storage := [], navigations := [], sent := [] } rfl,
    (requestInterceptor_without_token [] listRequest (by decide)).2.2 (by decide)⟩

/-- C9: a successful response is returned by the response interceptor as it is, and a
failure whose status is not 401 (a failure with no response included) is rejected as it
is: the same error, its request unmarked and unmodified, with the client not called (so
no request to `/refresh`), and storage and navigation untouched. -/
theorem response_interceptor_passes_through (client : Client) (w : World) :
    (∀ r : Response, responseFulfilled r = r) ∧
      (∀ err : AxiosError, err.status ≠ some 401 →
        responseRejected client err w = some (.error err, w)) ∧
      (∀ (fuel : Nat) (srv : Server) (config : Config) (r : Response),
        srv w.sent (requestInterceptor w.storage config) = .response r →
        r.status ≠ 401 →
        api (fuel + 1) srv config w =
          some (if 200 ≤ r.status ∧ r.status < 300 then .ok r
              else .error
                { config := requestInterceptor w.storage config, response := some r },
            { w with sent := w.sent ++ [requestInterceptor w.storage config] })) ∧
      (∀ (fuel : Nat) (srv : Server) (config : Config),
        srv w.sent (requestInterceptor w.storage config) = .networkError →
        api (fuel + 1) srv config w =
          some (.error { config := requestInterceptor w.storage config, response := none },
            { w with sent := w.sent ++ [requestInterceptor w.storage config] })) := by
  refine ⟨fun _ => rfl, ?_, ?_, ?_⟩
  · intro err h
    simp [responseRejected, h]
  · intro fuel srv config r hsrv hne
    by_cases hok : 200 ≤ r.status ∧ r.status < 300
    · simp [api, adapter, hsrv, hok, responseFulfilled]
    · simp [api, adapter, hsrv, hok, responseRejected, AxiosError.status, hne]
  · intro fuel srv config hsrv
    simp [api, adapter, hsrv, responseRejected, AxiosError.status]

/-- Witness of C9: a 500 failure and a network failure through the handler, and a
successful listing and a network failure through the whole client. -/
theorem response_interceptor_passes_through_witness :
    responseRejected (api 1 refreshingServer)
        { config := listRequest, response := some serverFailure } loggedInWorld =
        some (.error { config := listRequest, response := some serverFailure },
          loggedInWorld) ∧
      responseRejected (api 1 refreshingServer)
        { config := listRequest, response := none } loggedInWorld =
        some (.error { config := listRequest, response := none }, loggedInWorld) ∧
      api 1 refreshingServer listRequest loggedInWorld =
        some (if 200 ≤ listing.status ∧ listing.status < 300 then .ok listing
            else .error
              { config := requestInterceptor loggedInWorld.storage listRequest,
                response := some listing },
          { loggedInWorld with
            sent := loggedInWorld.sent ++
              [requestInterceptor loggedInWorld.storage listRequest] }) ∧
      api 1 offline listRequest loggedInWorld =
        some (.error
            { config := requestInterceptor loggedInWorld.storage listRequest,
              response := none },
          { loggedInWorld with
            sent := loggedInWorld.sent ++
              [requestInterceptor loggedInWorld.storage listRequest] }) :=
  ⟨(response_interceptor_passes_through (api 1 refreshingServer) loggedInWorld).2.1
      { config := listRequest, response := some serverFailure } (by decide),
    (response_interceptor_passes_through (api 1 refreshingServer) loggedInWorld).2.1
      { config := listRequest, response := none } (by decide),
    (response_interceptor_passes_through (api 1 refreshingServer) loggedInWorld).2.2.1 0
      refreshingServer listRequest listing (by decide) (by decide),
    (response_interceptor_passes_through (api 1 refreshingServer) loggedInWorld).2.2.2 0
      offline listRequest (by decide)⟩

/-! ## `fetchTasks`: one step of the retry chain -/

theorem enterFetch_calls (r : Render) (w : TaskWorld) :
    (enterFetch r w).getTasksCalls = w.getTasksCalls := by
  unfold enterFetch
  cases spacingWait w.now r.lastFetchTime <;> rfl

theorem callsAfter_length (r : Render) (params : Params) (w : TaskWorld) :
    (callsAfter r params w).length = w.getTasksCalls.length + 1 := by
  simp [callsAfter, enterFetch_calls]

theorem finalCatchGuard_false (err : Thrown) : finalCatchGuard err = false := rfl

/-- The call succeeds: `fetchTasks` stores the page and resolves with it. -/
theorem fetchTasks_of_ok (fuel : Nat) (getTasks : GetTasks) (r : Render) (params : Params)
    (w : TaskWorld) (p : TaskPage)
    (h : (getTasks (callsAfter r params w)).result = .ok p) :
    fetchTasks (fuel + 1) getTasks r params w =
      some (.ok p, finishOk p (afterCall getTasks r params w)) := by
  unfold callsAfter enterFetch at h
  simp only [fetchTasks, h]
  rfl

/-- The call is rejected with 429 within the budget of the render: `fetchTasks` settles
as its re-invocation does, storing the page again on success and clearing `loading`. -/
theorem fetchTasks_of_429 (fuel : Nat) (getTasks : GetTasks) (r : Render) (params : Params)
    (w : TaskWorld) (e : ServiceError)
    (h : (getTasks (callsAfter r params w)).result = .error e)
    (hlim : rateLimited e = true) (hr : r.retryCount < 3) :
    fetchTasks (fuel + 1) getTasks r params w =
      (match fetchTasks fuel getTasks r params
          (afterBackoff e.headersD (afterCall getTasks r params w)) with
        | none => none
        | some (.ok response, w3) => some (.ok response, finishOk response w3)
        | some (.error err, w3) => some (.error err, setLoading false w3)) := by
  obtain ⟨message, response⟩ := e
  cases response with
  | none => simp [rateLimited] at hlim
  | some resp =>
    obtain ⟨status, headers, detail⟩ := resp
    cases headers with
    | none => simp [rateLimited] at hlim
    | some hs =>
      have hst : status = some 429 := by simpa [rateLimited] using hlim
      subst hst
      unfold callsAfter enterFetch at h
      simp only [fetchTasks, h, handleApiError, ServiceError.status, Option.bind, hr, if_true]
      rfl

theorem afterBackoff_calls (headers : List (String × String)) (w : TaskWorld) :
    (afterBackoff headers w).getTasksCalls = w.getTasksCalls := rfl

theorem afterCall_calls (getTasks : GetTasks) (r : Render) (params : Params)
    (w : TaskWorld) :
    (afterCall getTasks r params w).getTasksCalls =
      w.getTasksCalls ++ [((enterFetch r w).now, params)] := by
  simp [afterCall, callsAfter, enterFetch_calls]

/-- The retry chain of a render whose bound `retryCount` is below 3: whatever the number
`k` of 429 rejections that precede the first success, `fetchTasks` makes `k + 1` calls
with the same parameters and resolves with the page, which it has stored. -/
theorem fetchTasks_succeeds_after_429s (getTasks : GetTasks) (r : Render) (params : Params)
    (p : TaskPage) (hr : r.retryCount < 3) :
    ∀ (k fuel : Nat) (w : TaskWorld), k < fuel →
      (∀ calls : List (Nat × Params), w.getTasksCalls.length < calls.length →
        calls.length ≤ w.getTasksCalls.length + k →
        ∃ e, (getTasks calls).result = .error e ∧ rateLimited e = true) →
      (∀ calls : List (Nat × Params), calls.length = w.getTasksCalls.length + k + 1 →
        (getTasks calls).result = .ok p) →
      ∃ (w1 : TaskWorld) (times : List Nat),
        fetchTasks fuel getTasks r params w = some (.ok p, w1) ∧
        times.length = k + 1 ∧
        w1.getTasksCalls = w.getTasksCalls ++ times.map (fun t => (t, params)) ∧
        w1.state.tasks = p.items.map TaskValue.task ∧
        w1.state.pagination =
          { total := p.total, page := p.page, size := p.size, pages := p.pages } ∧
        w1.state.retryCount = 0 ∧
        w1.state.loading = false := by
  intro k
  induction k with
  | zero =>
    intro fuel w hf _ hok
    obtain ⟨f, rfl⟩ : ∃ f, fuel = f + 1 := ⟨fuel - 1, by omega⟩
    have hcall := hok (callsAfter r params w) (by rw [callsAfter_length])
    refine ⟨_, [(enterFetch r w).now], fetchTasks_of_ok f getTasks r params w p hcall, rfl,
      ?_, rfl, rfl, rfl, rfl⟩
    show (afterCall getTasks r params w).getTasksCalls = _
    rw [afterCall_calls]
    rfl
  | succ k ih =>
    intro fuel w hf h429 hok
    obtain ⟨f, rfl⟩ : ∃ f, fuel = f + 1 := ⟨fuel - 1, by omega⟩
    obtain ⟨e, he, hlim⟩ := h429 (callsAfter r params w)
      (by rw [callsAfter_length]; omega) (by rw [callsAfter_length]; omega)
    have hlen : (afterBackoff e.headersD (afterCall getTasks r params w)).getTasksCalls.length
        = w.getTasksCalls.length + 1 := by
      rw [afterBackoff_calls, afterCall_calls]
      simp
    obtain ⟨w1, times, hrun, htimes, hcalls, _, _, _, _⟩ :=
      ih f (afterBackoff e.headersD (afterCall getTasks r params w)) (by omega)
        (fun calls h1 h2 => h429 calls (by omega) (by omega))
        (fun calls h1 => hok calls (by omega))
    refine ⟨finishOk p w1, (enterFetch r w).now :: times, ?_, by simp [htimes], ?_, rfl, rfl,
      rfl, rfl⟩
    · rw [fetchTasks_of_429 f getTasks r params w e he hlim hr, hrun]
    · show w1.getTasksCalls = _
      rw [hcalls, afterBackoff_calls, afterCall_calls]
      simp

/-! ## `fetchTasks`: rate-limit rejections followed by a success -/

/-- C10, amended: for every `k` in {0,1,2,3}, when `taskService.getTasks` rejects with
429 on the first `k` attempts of a `fetchTasks` call and succeeds on attempt `k + 1`,
and the call is made from a render whose attempt counter is below the ceiling of 3 (as
it is in a fresh provider), the call invokes `getTasks` exactly `k + 1` times, each with
the same parameters, resolves with the success payload, sets `tasks` to `payload.items`
and `pagination` to the payload's total, page, size and pages, and leaves the attempt
counter at 0. -/
theorem fetchTasks_retries_429_then_succeeds (getTasks : GetTasks) (r : Render)
    (params : Params) (p : TaskPage) (k fuel : Nat) (w : TaskWorld)
    (hk : k ≤ 3) (hr : r.retryCount < 3) (hfuel : k < fuel)
    (h429 : ∀ calls : List (Nat × Params), w.getTasksCalls.length < calls.length →
      calls.length ≤ w.getTasksCalls.length + k →
      ∃ e, (getTasks calls).result = .error e ∧ rateLimited e = true)
    (hok : ∀ calls : List (Nat × Params), calls.length = w.getTasksCalls.length + k + 1 →
      (getTasks calls).result = .ok p) :
    ∃ (w1 : TaskWorld) (times : List Nat),
      fetchTasks fuel getTasks r params w = some (.ok p, w1) ∧
      times.length = k + 1 ∧
      w1.getTasksCalls = w.getTasksCalls ++ times.map (fun t => (t, params)) ∧
      w1.state.tasks = p.items.map TaskValue.task ∧
      w1.state.pagination =
        { total := p.total, page := p.page, size := p.size, pages := p.pages } ∧
      w1.state.retryCount = 0 ∧
      w1.state.loading = false := by
  have _ := hk
  exact fetchTasks_succeeds_after_429s getTasks r params p hr k fuel w hfuel h429 hok

/-- Witness of the amended C10: three 429 rejections and a success on the fourth
attempt, in a fresh provider. -/
theorem fetchTasks_retries_429_then_succeeds_witness :
    ∃ (w1 : TaskWorld) (times : List Nat),
      fetchTasks 4 (limitedThenOk 3) (Render.ofState freshProvider.state) [] freshProvider =
        some (.ok onePage, w1) ∧
      times.length = 3 + 1 ∧
      w1.getTasksCalls = freshProvider.getTasksCalls ++ times.map (fun t => (t, [])) ∧
      w1.state.tasks = onePage.items.map TaskValue.task ∧
      w1.state.pagination =
        { total := onePage.total, page := onePage.page, size := onePage.size,
          pages := onePage.pages } ∧
      w1.state.retryCount = 0 ∧
      w1.state.loading = false :=
  fetchTasks_retries_429_then_succeeds (limitedThenOk 3) (Render.ofState freshProvider.state)
    [] onePage 3 4 freshProvider (by decide) (by decide) (by decide)
    (fun calls _ h2 => ⟨tooManyRequests, by
      have h3 : calls.length ≤ 3 := by simpa [freshProvider] using h2
      simp [limitedThenOk, h3], by decide⟩)
    (fun calls h1 => by
      have h3 : ¬ calls.length ≤ 3 := by
        have h4 : calls.length = 4 := by simpa [freshProvider] using h1
        omega
      simp [limitedThenOk, h3])


/-! ## `fetchTasks`: abandoning, and the chain that does not end -/

/-- The call is rejected with 429 and the render's bound `retryCount` is 3 or more:
`fetchTasks` abandons after this one call. -/
theorem fetchTasks_of_limit (fuel : Nat) (getTasks : GetTasks) (r : Render) (params : Params)
    (w : TaskWorld) (e : ServiceError)
    (h : (getTasks (callsAfter r params w)).result = .error e)
    (hlim : rateLimited e = true) (hr : 3 ≤ r.retryCount) :
    fetchTasks (fuel + 1) getTasks r params w =
      some (.error (.newError (detailOr e.detail "Error en la operación")),
        setLoading false
          (setRetryCount (fun _ => 0)
            (setError (some limitExceededMessage)
              (setError (some (interimMessage (retryAfterOf e.headersD)))
                (afterCall getTasks r params w))))) := by
  obtain ⟨message, response⟩ := e
  cases response with
  | none => simp [rateLimited] at hlim
  | some resp =>
    obtain ⟨status, headers, detail⟩ := resp
    cases headers with
    | none => simp [rateLimited] at hlim
    | some hs =>
      have hst : status = some 429 := by simpa [rateLimited] using hlim
      subst hst
      have hnot : ¬ r.retryCount < 3 := by omega
      unfold callsAfter enterFetch at h
      simp only [fetchTasks, h, handleApiError, ServiceError.status, Option.bind, hnot,
        if_true, if_false]
      rfl

/-- The call is rejected with a status other than 429, or with no response:
`fetchTasks` sets the message and rejects with the same error, after this one call. -/
theorem fetchTasks_of_failure (fuel : Nat) (getTasks : GetTasks) (r : Render)
    (params : Params) (w : TaskWorld) (e : ServiceError)
    (h : (getTasks (callsAfter r params w)).result = .error e)
    (hst : e.status ≠ some 429) :
    fetchTasks (fuel + 1) getTasks r params w =
      some (.error (.service e),
        setLoading false
          (setError (some (detailOr e.detail "Error en la operación"))
            (afterCall getTasks r params w))) := by
  unfold callsAfter enterFetch at h
  simp only [fetchTasks, h, handleApiError, hst, if_false]
  rfl

/-- Against a service that rejects every call with 429, a `fetchTasks` created by a
render whose bound `retryCount` is below 3 never settles: no amount of fuel suffices. -/
theorem fetchTasks_alwaysLimited_diverges (r : Render) (params : Params)
    (hr : r.retryCount < 3) :
    ∀ (fuel : Nat) (w : TaskWorld), fetchTasks fuel alwaysLimited r params w = none := by
  intro fuel
  induction fuel with
  | zero => intro w; rfl
  | succ n ih =>
    intro w
    rw [fetchTasks_of_429 n alwaysLimited r params w tooManyRequests rfl (by decide) hr, ih]

/-- C11, counterexample: in a fresh provider, against a service that answers 429 on
every attempt, `fetchTasks` never settles, so it does not abandon after three
invocations; and against a service that gives the same three 429 answers and then a
page, the fourth invocation is issued. -/
theorem fetchTasks_does_not_abandon_after_three_calls :
    (¬ ∃ (fuel : Nat) (out : TaskOutcome TaskPage) (w1 : TaskWorld),
      fetchTasks fuel alwaysLimited (Render.ofState freshProvider.state) [] freshProvider =
        some (out, w1)) ∧
    (∀ calls : List (Nat × Params), calls.length ≤ 3 →
      (limitedThenOk 3 calls).result = (alwaysLimited calls).result ∧
        (limitedThenOk 3 calls).latency = (alwaysLimited calls).latency) ∧
    (fetchTasks 4 (limitedThenOk 3) (Render.ofState freshProvider.state) []
        freshProvider).map (fun res => res.2.getTasksCalls.length) = some 4 := by
  refine ⟨?_, ?_, by decide⟩
  · rintro ⟨fuel, out, w1, h⟩
    rw [fetchTasks_alwaysLimited_diverges _ _ (by decide)] at h
    exact Option.noConfusion h
  · intro calls h
    simp [limitedThenOk, alwaysLimited, h]

/-- C11, amended: `fetchTasks` abandons on a 429 when the attempt counter bound by the
render that created it is 3 or more. It then has invoked `getTasks` once and issues no
further attempt, rejects to the caller with a new error whose message is the server's
detail or the fallback, resets the attempt counter to 0, and leaves the limit-exceeded
message as the error state, with `loading` false. -/
theorem fetchTasks_abandons_at_ceiling (fuel : Nat) (getTasks : GetTasks) (r : Render)
    (params : Params) (w : TaskWorld) (e : ServiceError)
    (h : (getTasks (callsAfter r params w)).result = .error e)
    (hlim : rateLimited e = true) (hr : 3 ≤ r.retryCount) :
    ∃ w1 : TaskWorld,
      fetchTasks (fuel + 1) getTasks r params w =
        some (.error (.newError (detailOr e.detail "Error en la operación")), w1) ∧
      w1.getTasksCalls = w.getTasksCalls ++ [((enterFetch r w).now, params)] ∧
      w1.state.retryCount = 0 ∧
      w1.state.error =
        some "Se ha excedido el límite de reintentos. Por favor, espera un momento." ∧
      w1.state.loading = false := by
  refine ⟨_, fetchTasks_of_limit fuel getTasks r params w e h hlim hr, ?_, rfl, rfl, rfl⟩
  show (afterCall getTasks r params w).getTasksCalls = _
  exact afterCall_calls getTasks r params w

/-- Witness of the amended C11: a provider whose counter stands at 3 and a service that
answers 429. -/
theorem fetchTasks_abandons_at_ceiling_witness :
    ∃ w1 : TaskWorld,
      fetchTasks (0 + 1) alwaysLimited (Render.ofState exhaustedProvider.state) []
          exhaustedProvider =
        some (.error (.newError (detailOr tooManyRequests.detail "Error en la operación")),
          w1) ∧
      w1.getTasksCalls = exhaustedProvider.getTasksCalls ++
        [((enterFetch (Render.ofState exhaustedProvider.state) exhaustedProvider).now, [])] ∧
      w1.state.retryCount = 0 ∧
      w1.state.error =
        some "Se ha excedido el límite de reintentos. Por favor, espera un momento." ∧
      w1.state.loading = false :=
  fetchTasks_abandons_at_ceiling 0 alwaysLimited (Render.ofState exhaustedProvider.state) []
    exhaustedProvider tooManyRequests rfl (by decide) (by decide)

/-- C12, at its failing input: a fresh provider and a service that answers 429 on every
attempt (the input of the test `debe manejar error 429 después de 3 reintentos`). For
every fuel `n` the call is still unfinished, so `fetchTasks` never gives up; and the
number of invocations is not bounded by 4: after `n` rejections with 429 the invocation
`n + 1` is issued, whatever `n` is. -/
theorem fetchTasks_always_429_never_gives_up (n : Nat) :
    fetchTasks n alwaysLimited (Render.ofState freshProvider.state) [] freshProvider = none ∧
    ∃ w1 : TaskWorld,
      fetchTasks (n + 1) (limitedThenOk n) (Render.ofState freshProvider.state) []
          freshProvider = some (.ok onePage, w1) ∧
      w1.getTasksCalls.length = n + 1 := by
  refine ⟨fetchTasks_alwaysLimited_diverges _ _ (by decide) n freshProvider, ?_⟩
  obtain ⟨w1, times, hrun, hlen, hcalls, _⟩ :=
    fetchTasks_succeeds_after_429s (limitedThenOk n) (Render.ofState freshProvider.state) []
      onePage (by decide) n (n + 1) freshProvider (by omega)
      (fun calls _ h2 => ⟨tooManyRequests, by
        have h3 : calls.length ≤ n := by simpa [freshProvider] using h2
        simp [limitedThenOk, h3], by decide⟩)
      (fun calls h1 => by
        have h3 : ¬ calls.length ≤ n := by
          have h4 : calls.length = n + 1 := by simpa [freshProvider] using h1
          omega
        simp [limitedThenOk, h3])
  refine ⟨w1, hrun, ?_⟩
  rw [hcalls]
  simp [freshProvider, hlen]

/-! ## `fetchTasks`: failures other than 429 -/

/-- C13: for every failure of `getTasks` whose status is not 429 (a failure with no
response included), `fetchTasks` makes no retry and no backoff wait: `getTasks` has been
called once, the clock stands where the call settled, the error state is the response's
detail when there is one (a non-empty text) and `Error en la operación` otherwise, the
very same error is rethrown, and `loading` ends false. -/
theorem fetchTasks_surfaces_other_failures (fuel : Nat) (getTasks : GetTasks) (r : Render)
    (params : Params) (w : TaskWorld) (e : ServiceError)
    (h : (getTasks (callsAfter r params w)).result = .error e)
    (hst : e.status ≠ some 429) :
    ∃ w1 : TaskWorld,
      fetchTasks (fuel + 1) getTasks r params w = some (.error (.service e), w1) ∧
      w1.getTasksCalls = w.getTasksCalls ++ [((enterFetch r w).now, params)] ∧
      w1.now = (enterFetch r w).now + (getTasks (callsAfter r params w)).latency ∧
      w1.state.error = some (detailOr e.detail "Error en la operación") ∧
      (∀ d, e.detail = some d → d ≠ "" → w1.state.error = some d) ∧
      (e.detail = none → w1.state.error = some "Error en la operación") ∧
      w1.state.retryCount = w.state.retryCount ∧
      w1.state.loading = false := by
  refine ⟨_, fetchTasks_of_failure fuel getTasks r params w e h hst, ?_, rfl, rfl, ?_, ?_, ?_,
    rfl⟩
  · show (afterCall getTasks r params w).getTasksCalls = _
    exact afterCall_calls getTasks r params w
  · intro d hd hne
    show some (detailOr e.detail "Error en la operación") = some d
    simp [detailOr, hd, truthy, hne]
  · intro hd
    show some (detailOr e.detail "Error en la operación") = _
    simp [detailOr, hd, truthy]
  · show (enterFetch r w).state.retryCount = _
    unfold enterFetch
    cases spacingWait w.now r.lastFetchTime <;> rfl

/-- Witness of C13: the rejection of the test-suite, which carries a detail and no
status. -/
theorem fetchTasks_surfaces_other_failures_witness :
    ∃ w1 : TaskWorld,
      fetchTasks (0 + 1) (alwaysFailing detailedFailure) (Render.ofState freshProvider.state)
          [] freshProvider = some (.error (.service detailedFailure), w1) ∧
      w1.getTasksCalls = freshProvider.getTasksCalls ++
        [((enterFetch (Render.ofState freshProvider.state) freshProvider).now, [])] ∧
      w1.now = (enterFetch (Render.ofState freshProvider.state) freshProvider).now +
        (alwaysFailing detailedFailure
          (callsAfter (Render.ofState freshProvider.state) [] freshProvider)).latency ∧
      w1.state.error = some (detailOr detailedFailure.detail "Error en la operación") ∧
      (∀ d, detailedFailure.detail = some d → d ≠ "" → w1.state.error = some d) ∧
      (detailedFailure.detail = none → w1.state.error = some "Error en la operación") ∧
      w1.state.retryCount = freshProvider.state.retryCount ∧
      w1.state.loading = false :=
  fetchTasks_surfaces_other_failures 0 (alwaysFailing detailedFailure)
    (Render.ofState freshProvider.state) [] freshProvider detailedFailure rfl (by decide)

/-! ## The backoff wait and the spacing guard -/

/-- The call is rejected with 429 by a response without headers: the read of the
header throws, and `fetchTasks` rejects with that `TypeError` after this one call. -/
theorem fetchTasks_of_missing_headers (fuel : Nat) (getTasks : GetTasks) (r : Render)
    (params : Params) (w : TaskWorld) (e : ServiceError)
    (h : (getTasks (callsAfter r params w)).result = .error e)
    (hst : e.status = some 429)
    (hhs : e.response.bind (fun resp => resp.headers) = none) :
    fetchTasks (fuel + 1) getTasks r params w =
      some (.error .typeError, setLoading false (afterCall getTasks r params w)) := by
  unfold callsAfter enterFetch at h
  simp only [fetchTasks, h, handleApiError, hst, hhs, if_true]
  rfl

theorem rateLimited_of_status (e : ServiceError) (hs : List (String × String))
    (hst : e.status = some 429)
    (hhs : e.response.bind (fun resp => resp.headers) = some hs) :
    rateLimited e = true := by
  obtain ⟨message, response⟩ := e
  cases response with
  | none => simp at hhs
  | some resp =>
    simp only [ServiceError.status, Option.bind] at hst
    simp only [Option.bind] at hhs
    simp [rateLimited, hst, hhs]

theorem callsAfter_eq (r : Render) (params : Params) (w : TaskWorld) :
    callsAfter r params w = w.getTasksCalls ++ [((enterFetch r w).now, params)] := by
  simp [callsAfter, enterFetch_calls]

/-- Every settled run of `fetchTasks` has issued its own call first, in the world that
the spacing guard leaves, and has appended nothing before it. -/
theorem fetchTasks_first_call (getTasks : GetTasks) (r : Render) (params : Params) :
    ∀ (fuel : Nat) (w : TaskWorld) (out : TaskOutcome TaskPage) (w1 : TaskWorld),
      fetchTasks fuel getTasks r params w = some (out, w1) →
      ∃ rest, w1.getTasksCalls = w.getTasksCalls ++ ((enterFetch r w).now, params) :: rest := by
  intro fuel
  induction fuel with
  | zero => intro w out w1 h; simp [fetchTasks] at h
  | succ n ih =>
    intro w out w1 h
    have hcalls : (afterCall getTasks r params w).getTasksCalls =
        w.getTasksCalls ++ [((enterFetch r w).now, params)] := afterCall_calls _ _ _ _
    cases hres : (getTasks (callsAfter r params w)).result with
    | ok p =>
      rw [fetchTasks_of_ok n getTasks r params w p hres] at h
      simp only [Option.some.injEq, Prod.mk.injEq] at h
      refine ⟨[], ?_⟩
      rw [← h.2]
      show (afterCall getTasks r params w).getTasksCalls = _
      rw [hcalls]
    | error e =>
      by_cases hst : e.status = some 429
      · cases hhs : e.response.bind (fun resp => resp.headers) with
        | none =>
          rw [fetchTasks_of_missing_headers n getTasks r params w e hres hst hhs] at h
          simp only [Option.some.injEq, Prod.mk.injEq] at h
          refine ⟨[], ?_⟩
          rw [← h.2]
          show (afterCall getTasks r params w).getTasksCalls = _
          rw [hcalls]
        | some hs =>
          have hlim := rateLimited_of_status e hs hst hhs
          by_cases hr : r.retryCount < 3
          · rw [fetchTasks_of_429 n getTasks r params w e hres hlim hr] at h
            cases hin : fetchTasks n getTasks r params
                (afterBackoff e.headersD (afterCall getTasks r params w)) with
            | none => rw [hin] at h; simp at h
            | some res =>
              obtain ⟨out2, w3⟩ := res
              obtain ⟨rest, hrest⟩ := ih _ out2 w3 hin
              rw [afterBackoff_calls, hcalls] at hrest
              rw [hin] at h
              cases out2 with
              | ok resp =>
                simp only [Option.some.injEq, Prod.mk.injEq] at h
                refine ⟨((enterFetch r (afterBackoff e.headersD
                  (afterCall getTasks r params w))).now, params) :: rest, ?_⟩
                rw [← h.2]
                show w3.getTasksCalls = _
                rw [hrest]
                simp
              | error err =>
                simp only [Option.some.injEq, Prod.mk.injEq] at h
                refine ⟨((enterFetch r (afterBackoff e.headersD
                  (afterCall getTasks r params w))).now, params) :: rest, ?_⟩
                rw [← h.2]
                show w3.getTasksCalls = _
                rw [hrest]
                simp
          · rw [fetchTasks_of_limit n getTasks r params w e hres hlim (by omega)] at h
            simp only [Option.some.injEq, Prod.mk.injEq] at h
            refine ⟨[], ?_⟩
            rw [← h.2]
            show (afterCall getTasks r params w).getTasksCalls = _
            rw [hcalls]
      · rw [fetchTasks_of_failure n getTasks r params w e hres hst] at h
        simp only [Option.some.injEq, Prod.mk.injEq] at h
        refine ⟨[], ?_⟩
        rw [← h.2]
        show (afterCall getTasks r params w).getTasksCalls = _
        rw [hcalls]

theorem enterFetch_now_waiting (r : Render) (w : TaskWorld)
    (h1 : r.lastFetchTime ≤ w.now) (h2 : w.now < r.lastFetchTime + 1000) :
    spacingWait w.now r.lastFetchTime = some (1000 - (w.now - r.lastFetchTime)) ∧
      (enterFetch r w).now = w.now + (1000 - (w.now - r.lastFetchTime)) := by
  have hw : spacingWait w.now r.lastFetchTime = some (1000 - (w.now - r.lastFetchTime)) := by
    unfold spacingWait
    have hlt : (w.now : Int) - (r.lastFetchTime : Int) < 1000 := by omega
    simp only [hlt, if_true, Option.some.injEq]
    omega
  refine ⟨hw, ?_⟩
  unfold enterFetch
  rw [hw]
  rfl

theorem enterFetch_now_spaced (r : Render) (w : TaskWorld)
    (h : r.lastFetchTime + 1000 ≤ w.now) :
    spacingWait w.now r.lastFetchTime = none ∧ (enterFetch r w).now = w.now := by
  have hw : spacingWait w.now r.lastFetchTime = none := by
    unfold spacingWait
    have hlt : ¬ (w.now : Int) - (r.lastFetchTime : Int) < 1000 := by omega
    simp only [hlt, if_false]
  refine ⟨hw, ?_⟩
  unfold enterFetch
  rw [hw]
  rfl

theorem readDigits_delay (runtimeDelay : String → Nat) (s : String) (n : Nat) (hs : s ≠ "")
    (hn : readDigits s.data 0 = some n) (hmax : n * 1000 ≤ maxTimerDelay) :
    retryDelay runtimeDelay s = n * 1000 := by
  unfold retryDelay
  cases hd : s.data with
  | nil =>
    exfalso
    apply hs
    cases s
    simp_all
  | cons c cs =>
    rw [hd] at hn
    simp [hn, hmax]

theorem enterFetch_now_ge (r : Render) (w : TaskWorld) : w.now ≤ (enterFetch r w).now := by
  unfold enterFetch
  cases spacingWait w.now r.lastFetchTime with
  | none => exact Nat.le_refl _
  | some ms => exact Nat.le_add_right _ _

theorem enterFetch_runtimeDelay (r : Render) (w : TaskWorld) :
    (enterFetch r w).runtimeDelay = w.runtimeDelay := by
  unfold enterFetch
  cases spacingWait w.now r.lastFetchTime <;> rfl

/-- C14, amended: on a 429 within the retry budget (the render's bound `retryCount`
below 3), `handleApiError` sets the interim message, increments the counter, waits and then runs
the retry callback. For a `retry-after` header that spells `n` seconds in decimal
digits, with `n * 1000` within the range of the timer, the wait is `n * 1000` ms; when
the header is absent it is 5000 ms; the interim message states that same number. In
`fetchTasks` the callback re-invokes `fetchTasks` with the same parameters: every
settled run has issued a second call with those parameters, no earlier than the wait
after the 429 settled, and the run settles when that second call succeeds. -/
theorem handleApiError_waits_retry_after {α : Type} (retryCount : Nat) (e : ServiceError)
    (hs : List (String × String))
    (retryOperation : TaskWorld → Option (TaskOutcome α × TaskWorld)) (w : TaskWorld)
    (hst : e.status = some 429)
    (hhs : e.response.bind (fun resp => resp.headers) = some hs)
    (hr : retryCount < 3) :
    handleApiError retryCount e retryOperation w =
        retryOperation
          { w with
            now := w.now + retryDelay w.runtimeDelay (retryAfterOf hs),
            state :=
              { w.state with
                error := some
                  ("Demasiadas solicitudes. Reintentando en " ++ retryAfterOf hs ++
                    " segundos..."),
                retryCount := w.state.retryCount + 1 } } ∧
      (∀ (s : String) (n : Nat), getKey "retry-after" hs = some s → s ≠ "" →
        readDigits s.data 0 = some n → n * 1000 ≤ 2147483647 →
        retryAfterOf hs = s ∧ retryDelay w.runtimeDelay (retryAfterOf hs) = n * 1000) ∧
      (getKey "retry-after" hs = none →
        retryAfterOf hs = "5" ∧ retryDelay w.runtimeDelay (retryAfterOf hs) = 5000) ∧
      (∀ (fuel : Nat) (getTasks : GetTasks) (r : Render) (params : Params) (w0 : TaskWorld),
        r.retryCount = retryCount →
        (getTasks (callsAfter r params w0)).result = .error e →
        (∀ (out : TaskOutcome TaskPage) (w1 : TaskWorld),
          fetchTasks (fuel + 1) getTasks r params w0 = some (out, w1) →
          ∃ (t : Nat) (rest : List (Nat × Params)),
            (afterCall getTasks r params w0).now +
                retryDelay w0.runtimeDelay (retryAfterOf hs) ≤ t ∧
            w1.getTasksCalls =
              w0.getTasksCalls ++ ((enterFetch r w0).now, params) :: (t, params) :: rest) ∧
        (∀ p : TaskPage,
          (getTasks (callsAfter r params
            (afterBackoff hs (afterCall getTasks r params w0)))).result = .ok p →
          ∃ w1 : TaskWorld,
            fetchTasks (fuel + 2) getTasks r params w0 = some (.ok p, w1))) := by
  refine ⟨?_, ?_, ?_, ?_⟩
  · simp only [handleApiError, hst, hhs, hr, if_true]
    rfl
  · intro s n hget hne hn hmax
    have h1 : retryAfterOf hs = s := by simp [retryAfterOf, hget, truthy, hne]
    rw [h1]
    exact ⟨rfl, readDigits_delay _ s n hne hn hmax⟩
  · intro hget
    have h1 : retryAfterOf hs = "5" := by simp [retryAfterOf, hget, truthy]
    rw [h1]
    exact ⟨rfl, readDigits_delay _ "5" 5 (by decide) (by decide) (by decide)⟩
  · intro fuel getTasks r params w0 hrc hres
    have hlim : rateLimited e = true := rateLimited_of_status e hs hst hhs
    have hd : e.headersD = hs := by simp [ServiceError.headersD, hhs]
    have hstep := fetchTasks_of_429 fuel getTasks r params w0 e hres hlim (by omega)
    rw [hd] at hstep
    refine ⟨?_, ?_⟩
    · intro out w1 h
      rw [hstep] at h
      cases hin : fetchTasks fuel getTasks r params
          (afterBackoff hs (afterCall getTasks r params w0)) with
      | none => rw [hin] at h; simp at h
      | some res =>
        obtain ⟨out2, w3⟩ := res
        obtain ⟨rest, hrest⟩ := fetchTasks_first_call getTasks r params fuel _ out2 w3 hin
        rw [afterBackoff_calls, afterCall_calls] at hrest
        have hge := enterFetch_now_ge r (afterBackoff hs (afterCall getTasks r params w0))
        have hnow : (afterBackoff hs (afterCall getTasks r params w0)).now =
            (afterCall getTasks r params w0).now +
              retryDelay w0.runtimeDelay (retryAfterOf hs) := by
          show (afterCall getTasks r params w0).now +
              retryDelay (afterCall getTasks r params w0).runtimeDelay (retryAfterOf hs) = _
          have : (afterCall getTasks r params w0).runtimeDelay = w0.runtimeDelay :=
            enterFetch_runtimeDelay r w0
          rw [this]
        rw [hnow] at hge
        rw [hin] at h
        refine ⟨(enterFetch r (afterBackoff hs (afterCall getTasks r params w0))).now, rest,
          hge, ?_⟩
        cases out2 with
        | ok resp =>
          simp only [Option.some.injEq, Prod.mk.injEq] at h
          rw [← h.2]
          show w3.getTasksCalls = _
          rw [hrest]
          simp
        | error err =>
          simp only [Option.some.injEq, Prod.mk.injEq] at h
          rw [← h.2]
          show w3.getTasksCalls = _
          rw [hrest]
          simp
    · intro p hp
      have hstep2 := fetchTasks_of_429 (fuel + 1) getTasks r params w0 e hres hlim (by omega)
      rw [hd] at hstep2
      rw [hstep2, fetchTasks_of_ok fuel getTasks r params _ p hp]
      exact ⟨_, rfl⟩

/-- Witness of the amended C14: the 429 of the test-suite, whose header is `1`, and a 429 without
the header, both handled with a callback that reports the world it is run in; and a
listing in a fresh provider that is rejected once with the 429 of the test-suite. -/
theorem handleApiError_waits_retry_after_witness :
    handleApiError 0 tooManyRequests
        (fun w1 => some (.ok (w1.now, w1.state.error, w1.state.retryCount), w1))
        freshProvider =
        some (.ok (6000, some "Demasiadas solicitudes. Reintentando en 1 segundos...", 1),
          { freshProvider with
            now := 6000,
            state :=
              { freshProvider.state with
                error := some "Demasiadas solicitudes. Reintentando en 1 segundos...",
                retryCount := 1 } }) ∧
      retryDelay freshProvider.runtimeDelay (retryAfterOf [("retry-after", "1")]) =
        1 * 1000 ∧
      handleApiError 0 limitedNoHeader
        (fun w1 => some (.ok (w1.now, w1.state.error, w1.state.retryCount), w1))
        freshProvider =
        some (.ok (10000, some "Demasiadas solicitudes. Reintentando en 5 segundos...", 1),
          { freshProvider with
            now := 10000,
            state :=
              { freshProvider.state with
                error := some "Demasiadas solicitudes. Reintentando en 5 segundos...",
                retryCount := 1 } }) ∧
      retryDelay freshProvider.runtimeDelay (retryAfterOf []) = 5000 ∧
      (∀ (out : TaskOutcome TaskPage) (w1 : TaskWorld),
        fetchTasks (1 + 1) (limitedThenOk 1) (Render.ofState freshProvider.state)
          [("completed", .bool true)] freshProvider = some (out, w1) →
        ∃ (t : Nat) (rest : List (Nat × Params)),
          (afterCall (limitedThenOk 1) (Render.ofState freshProvider.state)
              [("completed", .bool true)] freshProvider).now +
              retryDelay freshProvider.runtimeDelay (retryAfterOf [("retry-after", "1")]) ≤
            t ∧
          w1.getTasksCalls =
            freshProvider.getTasksCalls ++
              ((enterFetch (Render.ofState freshProvider.state) freshProvider).now,
                [("completed", .bool true)]) :: (t, [("completed", .bool true)]) :: rest) ∧
      (∃ w1 : TaskWorld,
        fetchTasks (0 + 2) (limitedThenOk 1) (Render.ofState freshProvider.state)
          [("completed", .bool true)] freshProvider = some (.ok onePage, w1)) :=
  ⟨(handleApiError_waits_retry_after 0 tooManyRequests [("retry-after", "1")]
      (fun w1 => some (.ok (w1.now, w1.state.error, w1.state.retryCount), w1)) freshProvider
      (by decide) (by decide) (by decide)).1,
    ((handleApiError_waits_retry_after 0 tooManyRequests [("retry-after", "1")]
      (fun w1 => some (.ok (w1.now, w1.state.error, w1.state.retryCount), w1)) freshProvider
      (by decide) (by decide) (by decide)).2.1 "1" 1 (by decide) (by decide) (by decide)
      (by decide)).2,
    (handleApiError_waits_retry_after 0 limitedNoHeader []
      (fun w1 => some (.ok (w1.now, w1.state.error, w1.state.retryCount), w1)) freshProvider
      (by decide) (by decide) (by decide)).1,
    ((handleApiError_waits_retry_after 0 limitedNoHeader []
      (fun w1 => some (.ok (w1.now, w1.state.error, w1.state.retryCount), w1)) freshProvider
      (by decide) (by decide) (by decide)).2.2.1 (by decide)).2,
    ((handleApiError_waits_retry_after 0 tooManyRequests [("retry-after", "1")]
      (fun w1 => some (.ok (w1.now, w1.state.error, w1.state.retryCount), w1)) freshProvider
      (by decide) (by decide) (by decide)).2.2.2 1 (limitedThenOk 1)
      (Render.ofState freshProvider.state) [("completed", .bool true)] freshProvider rfl
      rfl).1,
    ((handleApiError_waits_retry_after 0 tooManyRequests [("retry-after", "1")]
      (fun w1 => some (.ok (w1.now, w1.state.error, w1.state.retryCount), w1)) freshProvider
      (by decide) (by decide) (by decide)).2.2.2 0 (limitedThenOk 1)
      (Render.ofState freshProvider.state) [("completed", .bool true)] freshProvider rfl
      rfl).2 onePage rfl⟩

/-- C15: the spacing guard of `fetchTasks`, with `lastFetchTime` the value bound by the
render that created the function. Invoked at time `now` with
`0 <= now - lastFetchTime < 1000`, it waits exactly `1000 - (now - lastFetchTime)` ms,
so that its call to `getTasks` is issued at `lastFetchTime + 1000`; invoked with
`now - lastFetchTime >= 1000`, it does not wait and issues the call at `now`. The call
is the first thing every settled run has added to the calls of the service, and a run
whose call succeeds does settle. -/
theorem fetchTasks_spacing_guard (getTasks : GetTasks) (r : Render) (params : Params)
    (w : TaskWorld) :
    (r.lastFetchTime ≤ w.now → w.now < r.lastFetchTime + 1000 →
      spacingWait w.now r.lastFetchTime = some (1000 - (w.now - r.lastFetchTime)) ∧
      w.now + (1000 - (w.now - r.lastFetchTime)) = r.lastFetchTime + 1000 ∧
      ∀ (fuel : Nat) (out : TaskOutcome TaskPage) (w1 : TaskWorld),
        fetchTasks fuel getTasks r params w = some (out, w1) →
        ∃ rest, w1.getTasksCalls =
          w.getTasksCalls ++ (r.lastFetchTime + 1000, params) :: rest) ∧
    (r.lastFetchTime + 1000 ≤ w.now →
      spacingWait w.now r.lastFetchTime = none ∧
      ∀ (fuel : Nat) (out : TaskOutcome TaskPage) (w1 : TaskWorld),
        fetchTasks fuel getTasks r params w = some (out, w1) →
        ∃ rest, w1.getTasksCalls = w.getTasksCalls ++ (w.now, params) :: rest) ∧
    (∀ (fuel : Nat) (p : TaskPage),
      (getTasks (w.getTasksCalls ++ [((enterFetch r w).now, params)])).result = .ok p →
      ∃ w1, fetchTasks (fuel + 1) getTasks r params w = some (.ok p, w1) ∧
        w1.getTasksCalls = w.getTasksCalls ++ [((enterFetch r w).now, params)]) := by
  refine ⟨?_, ?_, ?_⟩
  · intro h1 h2
    obtain ⟨hw, hn⟩ := enterFetch_now_waiting r w h1 h2
    refine ⟨hw, by omega, ?_⟩
    intro fuel out w1 h
    obtain ⟨rest, hrest⟩ := fetchTasks_first_call getTasks r params fuel w out w1 h
    refine ⟨rest, ?_⟩
    rw [hrest, hn]
    have : w.now + (1000 - (w.now - r.lastFetchTime)) = r.lastFetchTime + 1000 := by omega
    rw [this]
  · intro h1
    obtain ⟨hw, hn⟩ := enterFetch_now_spaced r w h1
    refine ⟨hw, ?_⟩
    intro fuel out w1 h
    obtain ⟨rest, hrest⟩ := fetchTasks_first_call getTasks r params fuel w out w1 h
    exact ⟨rest, by rw [hrest, hn]⟩
  · intro fuel p hp
    rw [← callsAfter_eq] at hp
    refine ⟨_, fetchTasks_of_ok fuel getTasks r params w p hp, ?_⟩
    show (afterCall getTasks r params w).getTasksCalls = _
    exact afterCall_calls _ _ _ _

/-- Witness of C15: a call 400 ms after the last fetch waits 600 ms and is issued at
5600; a call in a fresh provider at 5000 is issued at once. -/
theorem fetchTasks_spacing_guard_witness :
    (spacingWait 5000 4600 = some (1000 - (5000 - 4600)) ∧
      5000 + (1000 - (5000 - 4600)) = 4600 + 1000 ∧
      ∀ (fuel : Nat) (out : TaskOutcome TaskPage) (w1 : TaskWorld),
        fetchTasks fuel (limitedThenOk 0) (Render.ofState recentProvider.state) []
          recentProvider = some (out, w1) →
        ∃ rest, w1.getTasksCalls =
          recentProvider.getTasksCalls ++ (4600 + 1000, []) :: rest) ∧
    (spacingWait 5000 0 = none ∧
      ∀ (fuel : Nat) (out : TaskOutcome TaskPage) (w1 : TaskWorld),
        fetchTasks fuel (limitedThenOk 0) (Render.ofState freshProvider.state) []
          freshProvider = some (out, w1) →
        ∃ rest, w1.getTasksCalls = freshProvider.getTasksCalls ++ (5000, []) :: rest) ∧
    (∃ w1, fetchTasks (0 + 1) (limitedThenOk 0) (Render.ofState recentProvider.state) []
        recentProvider = some (.ok onePage, w1) ∧
      w1.getTasksCalls = recentProvider.getTasksCalls ++
        [((enterFetch (Render.ofState recentProvider.state) recentProvider).now, [])]) :=
  ⟨(fetchTasks_spacing_guard (limitedThenOk 0) (Render.ofState recentProvider.state) []
      recentProvider).1 (by decide) (by decide),
    (fetchTasks_spacing_guard (limitedThenOk 0) (Render.ofState freshProvider.state) []
      freshProvider).2.1 (by decide),
    (fetchTasks_spacing_guard (limitedThenOk 0) (Render.ofState recentProvider.state) []
      recentProvider).2.2 0 onePage (by decide)⟩

/-- C16, at its failing input: a fresh provider at time 5000 and a service that answers
the first call after 20 ms with a 429 whose `retry-after` is `0`, then succeeds. The
retry re-invokes `fetchTasks` of the same render, whose `lastFetchTime` is still 0, so
the guard does not wait: the two calls to the endpoint are issued at 5000 and 5020,
20 ms apart. -/
theorem fetchTasks_retry_is_not_spaced :
    (fetchTasks 2 limitedOnceNoDelay (Render.ofState freshProvider.state) []
        freshProvider).map (fun res => res.2.getTasksCalls) =
      some [(5000, []), (5020, [])] := by
  decide

/-! ## The mutating operations -/

/-- C17, at its failing input: in a fresh provider, `createTask` is rejected with 429
once and its retry succeeds. The operation resolves with `success: true` and the
attempt counter is left at 1, not 0. After a `createTask` that went through three 429
rejections the counter is left at 3, and a `fetchTasks` of the next render abandons on
its first 429, after a single call. -/
theorem createTask_success_leaves_counter :
    (createTask 2 (mutationLimitedThenOk 1 createdTask) (Render.ofState freshProvider.state)
        [("title", .str "New Task")] freshProvider).map
        (fun res => (res.1, res.2.state.retryCount)) =
      some (.succeeded (.succeeded (.task createdTask)), 1) ∧
    (createTask 4 (mutationLimitedThenOk 3 createdTask) (Render.ofState freshProvider.state)
        [("title", .str "New Task")] freshProvider).bind
        (fun res =>
          (fetchTasks 1 alwaysLimited (Render.ofState res.2.state) [] res.2).map
            (fun res2 =>
              (res.2.state.retryCount, res2.1, res2.2.getTasksCalls.length,
                res2.2.state.error))) =
      some (3, .error (.newError "Too many requests"), 1,
        some "Se ha excedido el límite de reintentos. Por favor, espera un momento.") := by
  decide

/-- The service call of `createTask` succeeds at once. -/
theorem createTask_of_ok (fuel : Nat) (svc : Mutation Task) (r : Render) (taskData : Params)
    (w : TaskWorld) (t : Task)
    (h : (svc (w.mutationCalls ++ [.createTask taskData])).result = .ok t) :
    createTask (fuel + 1) svc r taskData w =
      some (.succeeded (.task t),
        setTasksWith (fun prevTasks => .task t :: prevTasks)
          (afterMutationCall svc (.createTask taskData) w)) := by
  have h1 : (svc ((setError none w).mutationCalls ++ [.createTask taskData])).result =
      .ok t := h
  simp only [createTask, h1]
  rfl

/-- The service call of `updateTask` succeeds at once. -/
theorem updateTask_of_ok (fuel : Nat) (svc : Mutation Task) (r : Render) (id : Nat)
    (taskData : Params) (w : TaskWorld) (u : Task)
    (h : (svc (w.mutationCalls ++ [.updateTask id taskData])).result = .ok u) :
    updateTask (fuel + 1) svc r id taskData w =
      some (.succeeded (.task u),
        setTasksWith
          (fun prevTasks =>
            prevTasks.map (fun task => if task.id = some id then .task u else task))
          (afterMutationCall svc (.updateTask id taskData) w)) := by
  have h1 : (svc ((setError none w).mutationCalls ++ [.updateTask id taskData])).result =
      .ok u := h
  simp only [updateTask, h1]
  rfl

/-- The service call of `deleteTask` succeeds at once. -/
theorem deleteTask_of_ok (fuel : Nat) (svc : Mutation Unit) (r : Render) (id : Nat)
    (w : TaskWorld)
    (h : (svc (w.mutationCalls ++ [.deleteTask id])).result = .ok ()) :
    deleteTask (fuel + 1) svc r id w =
      some (.done,
        setTasksWith (fun prevTasks => prevTasks.filter (fun task => task.id ≠ some id))
          (afterMutationCall svc (.deleteTask id) w)) := by
  have h1 : (svc ((setError none w).mutationCalls ++ [.deleteTask id])).result = .ok () := h
  simp only [deleteTask, h1]
  rfl

/-- The service call of `deleteTask` is rejected with 429 within the budget of the
render: `deleteTask` re-invokes itself after the backoff, then filters the list and
resolves with `success: true` whatever the re-invocation resolved with. -/
theorem deleteTask_of_429 (fuel : Nat) (svc : Mutation Unit) (r : Render) (id : Nat)
    (w : TaskWorld) (e : ServiceError)
    (h : (svc (w.mutationCalls ++ [.deleteTask id])).result = .error e)
    (hlim : rateLimited e = true) (hr : r.retryCount < 3) :
    deleteTask (fuel + 1) svc r id w =
      (match deleteTask fuel svc r id
          (afterBackoff e.headersD (afterMutationCall svc (.deleteTask id) w)) with
        | none => none
        | some res =>
          some (.done,
            setTasksWith (fun prevTasks => prevTasks.filter (fun task => task.id ≠ some id))
              res.2)) := by
  have h1 : (svc ((setError none w).mutationCalls ++ [.deleteTask id])).result =
      .error e := h
  obtain ⟨message, response⟩ := e
  cases response with
  | none => simp [rateLimited] at hlim
  | some resp =>
    obtain ⟨status, headers, detail⟩ := resp
    cases headers with
    | none => simp [rateLimited] at hlim
    | some hs =>
      have hst : status = some 429 := by simpa [rateLimited] using hlim
      subst hst
      have hd : ServiceError.headersD
          { message := message,
            response := some { status := some 429, headers := some hs, detail := detail } } =
          hs := rfl
      rw [hd]
      cases hin : deleteTask fuel svc r id
          (afterBackoff hs (afterMutationCall svc (.deleteTask id) w)) with
      | none =>
        simp only [afterBackoff, afterMutationCall] at hin
        simp only [deleteTask, h1, handleApiError, ServiceError.status, Option.bind, hr,
          if_true, hin]
        rfl
      | some res =>
        simp only [afterBackoff, afterMutationCall] at hin
        simp only [deleteTask, h1, handleApiError, ServiceError.status, Option.bind, hr,
          if_true, hin]
        rfl

/-- C18: for every task list and every successful first attempt of
`taskService.createTask` returning task `t`, `createTask` resolves to
`{success: true, task: t}` after that one call and the task list becomes `t` followed
by the previous list. -/
theorem createTask_prepends_new_task (fuel : Nat) (svc : Mutation Task) (r : Render)
    (taskData : Params) (w : TaskWorld) (t : Task)
    (h : (svc (w.mutationCalls ++ [.createTask taskData])).result = .ok t) :
    ∃ w1 : TaskWorld,
      createTask (fuel + 1) svc r taskData w = some (.succeeded (.task t), w1) ∧
      w1.state.tasks = .task t :: w.state.tasks ∧
      w1.mutationCalls = w.mutationCalls ++ [.createTask taskData] :=
  ⟨_, createTask_of_ok fuel svc r taskData w t h, rfl, rfl⟩

/-- Witness of C18: a creation in a provider that holds two tasks. -/
theorem createTask_prepends_new_task_witness :
    ∃ w1 : TaskWorld,
      createTask (0 + 1) (mutationLimitedThenOk 0 createdTask)
          (Render.ofState twoTaskProvider.state) [("title", .str "New Task")]
          twoTaskProvider = some (.succeeded (.task createdTask), w1) ∧
      w1.state.tasks = .task createdTask :: twoTaskProvider.state.tasks ∧
      w1.mutationCalls = twoTaskProvider.mutationCalls ++
        [.createTask [("title", .str "New Task")]] :=
  createTask_prepends_new_task 0 (mutationLimitedThenOk 0 createdTask)
    (Render.ofState twoTaskProvider.state) [("title", .str "New Task")] twoTaskProvider
    createdTask (by decide)

/-- C19: for every task list, id and successful first attempt of
`taskService.updateTask` returning `u`, `updateTask` resolves to
`{success: true, task: u}` and the task list becomes the previous list with every
element whose id is the given id replaced by `u` and every other element unchanged at
its position: same length, same order, and the same list when no element has that
id. -/
theorem updateTask_replaces_matching_tasks (fuel : Nat) (svc : Mutation Task) (r : Render)
    (id : Nat) (taskData : Params) (w : TaskWorld) (u : Task)
    (h : (svc (w.mutationCalls ++ [.updateTask id taskData])).result = .ok u) :
    ∃ w1 : TaskWorld,
      updateTask (fuel + 1) svc r id taskData w = some (.succeeded (.task u), w1) ∧
      w1.state.tasks =
        w.state.tasks.map (fun task => if task.id = some id then .task u else task) ∧
      w1.state.tasks.length = w.state.tasks.length ∧
      (∀ (i : Nat) (task : TaskValue), w.state.tasks[i]? = some task →
        w1.state.tasks[i]? = some (if task.id = some id then .task u else task)) ∧
      ((∀ task ∈ w.state.tasks, task.id ≠ some id) → w1.state.tasks = w.state.tasks) := by
  refine ⟨_, updateTask_of_ok fuel svc r id taskData w u h, rfl, ?_, ?_, ?_⟩
  · show (w.state.tasks.map _).length = _
    simp
  · intro i task hi
    show (w.state.tasks.map _)[i]? = _
    simp [List.getElem?_map, hi]
  · intro hno
    show w.state.tasks.map _ = _
    conv_rhs => rw [← List.map_id w.state.tasks]
    apply List.map_congr_left
    intro task ht
    simp [hno task ht]

/-- Witness of C19: an update of task 1 in a provider that holds tasks 1 and 2. -/
theorem updateTask_replaces_matching_tasks_witness :
    ∃ w1 : TaskWorld,
      updateTask (0 + 1) (mutationLimitedThenOk 0 updatedTaskOne)
          (Render.ofState twoTaskProvider.state) 1 [("title", .str "Updated Task")]
          twoTaskProvider = some (.succeeded (.task updatedTaskOne), w1) ∧
      w1.state.tasks =
        twoTaskProvider.state.tasks.map
          (fun task => if task.id = some 1 then .task updatedTaskOne else task) ∧
      w1.state.tasks.length = twoTaskProvider.state.tasks.length ∧
      (∀ (i : Nat) (task : TaskValue), twoTaskProvider.state.tasks[i]? = some task →
        w1.state.tasks[i]? = some (if task.id = some 1 then .task updatedTaskOne else task)) ∧
      ((∀ task ∈ twoTaskProvider.state.tasks, task.id ≠ some 1) →
        w1.state.tasks = twoTaskProvider.state.tasks) :=
  updateTask_replaces_matching_tasks 0 (mutationLimitedThenOk 0 updatedTaskOne)
    (Render.ofState twoTaskProvider.state) 1 [("title", .str "Updated Task")]
    twoTaskProvider updatedTaskOne (by decide)

/-- The retry chain of `deleteTask`: `k` rejections with 429 (none, or within the budget
of the render) followed by a success. -/
theorem deleteTask_succeeds_after_429s (svc : Mutation Unit) (r : Render) (id : Nat) :
    ∀ (k fuel : Nat) (w : TaskWorld), k < fuel → (k = 0 ∨ r.retryCount < 3) →
      (∀ calls : List MutationCall, w.mutationCalls.length < calls.length →
        calls.length ≤ w.mutationCalls.length + k →
        ∃ e, (svc calls).result = .error e ∧ rateLimited e = true) →
      (∀ calls : List MutationCall, calls.length = w.mutationCalls.length + k + 1 →
        (svc calls).result = .ok ()) →
      ∃ w1 : TaskWorld,
        deleteTask fuel svc r id w = some (.done, w1) ∧
        w1.state.tasks = w.state.tasks.filter (fun task => task.id ≠ some id) ∧
        w1.mutationCalls = w.mutationCalls ++ List.replicate (k + 1) (.deleteTask id) := by
  intro k
  induction k with
  | zero =>
    intro fuel w hf _ _ hok
    obtain ⟨f, rfl⟩ : ∃ f, fuel = f + 1 := ⟨fuel - 1, by omega⟩
    have hcall := hok (w.mutationCalls ++ [.deleteTask id]) (by simp)
    exact ⟨_, deleteTask_of_ok f svc r id w hcall, rfl, rfl⟩
  | succ k ih =>
    intro fuel w hf hbudget h429 hok
    obtain ⟨f, rfl⟩ : ∃ f, fuel = f + 1 := ⟨fuel - 1, by omega⟩
    have hr : r.retryCount < 3 := by
      rcases hbudget with h0 | h3
      · omega
      · exact h3
    obtain ⟨e, he, hlim⟩ := h429 (w.mutationCalls ++ [.deleteTask id]) (by simp) (by simp)
    have hlen : (afterBackoff e.headersD
        (afterMutationCall svc (.deleteTask id) w)).mutationCalls.length =
        w.mutationCalls.length + 1 := by
      show (w.mutationCalls ++ [MutationCall.deleteTask id]).length = _
      simp
    obtain ⟨w1, hrun, htasks, hcalls⟩ :=
      ih f (afterBackoff e.headersD (afterMutationCall svc (.deleteTask id) w)) (by omega)
        (Or.inr hr)
        (fun calls h1 h2 => h429 calls (by omega) (by omega))
        (fun calls h1 => hok calls (by omega))
    refine ⟨_, by rw [deleteTask_of_429 f svc r id w e he hlim hr, hrun], ?_, ?_⟩
    · show w1.state.tasks.filter _ = _
      rw [htasks]
      show (w.state.tasks.filter _).filter _ = _
      simp [List.filter_filter]
    · show w1.mutationCalls = _
      rw [hcalls]
      show w.mutationCalls ++ [MutationCall.deleteTask id] ++ _ = _
      simp [List.replicate_succ]

/-- C20: for every task list and id, after a successful `deleteTask(id)` (the call to
the service succeeds, at once or after `k` rejections with 429 that the render's budget
lets it retry) the result is `{success: true}` and the task list is exactly the
elements of the previous list whose id differs from the given id, in their original
relative order, so that no element with that id remains. -/
theorem deleteTask_removes_matching_tasks (svc : Mutation Unit) (r : Render) (id : Nat)
    (k fuel : Nat) (w : TaskWorld) (hfuel : k < fuel)
    (hbudget : k = 0 ∨ r.retryCount < 3)
    (h429 : ∀ calls : List MutationCall, w.mutationCalls.length < calls.length →
      calls.length ≤ w.mutationCalls.length + k →
      ∃ e, (svc calls).result = .error e ∧ rateLimited e = true)
    (hok : ∀ calls : List MutationCall, calls.length = w.mutationCalls.length + k + 1 →
      (svc calls).result = .ok ()) :
    ∃ w1 : TaskWorld,
      deleteTask fuel svc r id w = some (.done, w1) ∧
      w1.state.tasks = w.state.tasks.filter (fun task => task.id ≠ some id) ∧
      List.Sublist w1.state.tasks w.state.tasks ∧
      (∀ task ∈ w1.state.tasks, task.id ≠ some id) ∧
      (∀ task ∈ w.state.tasks, task.id ≠ some id → task ∈ w1.state.tasks) := by
  obtain ⟨w1, hrun, htasks, _⟩ :=
    deleteTask_succeeds_after_429s svc r id k fuel w hfuel hbudget h429 hok
  refine ⟨w1, hrun, htasks, ?_, ?_, ?_⟩
  · rw [htasks]
    exact List.filter_sublist _
  · intro task ht
    rw [htasks] at ht
    simpa using (List.mem_filter.mp ht).2
  · intro task ht hne
    rw [htasks]
    exact List.mem_filter.mpr ⟨ht, by simpa using hne⟩

/-- Witness of C20: task 1 is deleted from a provider that holds tasks 1 and 2, after
two rejections with 429. -/
theorem deleteTask_removes_matching_tasks_witness :
    ∃ w1 : TaskWorld,
      deleteTask 3 (mutationLimitedThenOk 2 ()) (Render.ofState twoTaskProvider.state) 1
          twoTaskProvider = some (.done, w1) ∧
      w1.state.tasks = twoTaskProvider.state.tasks.filter (fun task => task.id ≠ some 1) ∧
      List.Sublist w1.state.tasks twoTaskProvider.state.tasks ∧
      (∀ task ∈ w1.state.tasks, task.id ≠ some 1) ∧
      (∀ task ∈ twoTaskProvider.state.tasks, task.id ≠ some 1 → task ∈ w1.state.tasks) :=
  deleteTask_removes_matching_tasks (mutationLimitedThenOk 2 ())
    (Render.ofState twoTaskProvider.state) 1 2 3 twoTaskProvider (by decide)
    (Or.inr (by decide))
    (fun calls _ h2 => ⟨tooManyRequests, by
      have h3 : calls.length ≤ 2 := by simpa [twoTaskProvider] using h2
      simp [mutationLimitedThenOk, h3], by decide⟩)
    (fun calls h1 => by
      have h3 : ¬ calls.length ≤ 2 := by
        have h4 : calls.length = 3 := by simpa [twoTaskProvider] using h1
        omega
      simp [mutationLimitedThenOk, h3])


/-! ## The mutating operations: failures, the final guard, the retry path -/

/-- The service call of `createTask` is rejected with a status other than 429, or with
no response. -/
theorem createTask_of_failure (fuel : Nat) (svc : Mutation Task) (r : Render)
    (taskData : Params) (w : TaskWorld) (e : ServiceError)
    (h : (svc (w.mutationCalls ++ [.createTask taskData])).result = .error e)
    (hst : e.status ≠ some 429) :
    createTask (fuel + 1) svc r taskData w =
      some (.failed e.message,
        setError (some (detailOr e.detail "Error en la operación"))
          (afterMutationCall svc (.createTask taskData) w)) := by
  have h1 : (svc ((setError none w).mutationCalls ++ [.createTask taskData])).result =
      .error e := h
  simp only [createTask, h1, handleApiError, hst, if_false]
  rfl

/-- The service call of `updateTask` is rejected with a status other than 429, or with
no response. -/
theorem updateTask_of_failure (fuel : Nat) (svc : Mutation Task) (r : Render) (id : Nat)
    (taskData : Params) (w : TaskWorld) (e : ServiceError)
    (h : (svc (w.mutationCalls ++ [.updateTask id taskData])).result = .error e)
    (hst : e.status ≠ some 429) :
    updateTask (fuel + 1) svc r id taskData w =
      some (.failed e.message,
        setError (some (detailOr e.detail "Error en la operación"))
          (afterMutationCall svc (.updateTask id taskData) w)) := by
  have h1 : (svc ((setError none w).mutationCalls ++ [.updateTask id taskData])).result =
      .error e := h
  simp only [updateTask, h1, handleApiError, hst, if_false]
  rfl

/-- The service call of `deleteTask` is rejected with a status other than 429, or with
no response. -/
theorem deleteTask_of_failure (fuel : Nat) (svc : Mutation Unit) (r : Render) (id : Nat)
    (w : TaskWorld) (e : ServiceError)
    (h : (svc (w.mutationCalls ++ [.deleteTask id])).result = .error e)
    (hst : e.status ≠ some 429) :
    deleteTask (fuel + 1) svc r id w =
      some (.failed e.message,
        setError (some (detailOr e.detail "Error en la operación"))
          (afterMutationCall svc (.deleteTask id) w)) := by
  have h1 : (svc ((setError none w).mutationCalls ++ [.deleteTask id])).result =
      .error e := h
  simp only [deleteTask, h1, handleApiError, hst, if_false]
  rfl

theorem detailOr_of_detail (d fallback : String) (hd : d ≠ "") :
    detailOr (some d) fallback = d := by
  simp [detailOr, truthy, hd]

theorem detailOr_of_none (fallback : String) : detailOr none fallback = fallback := by
  simp [detailOr, truthy]

/-- The part of C21 that the code meets, the first attempt: when the service call that
`createTask`, `updateTask` or `deleteTask` makes itself fails with an error whose status
is not 429 (an error with no response included), the operation does not throw: it
resolves to `{success: false, error: <the error's message>}` after that one call, the
task list is unchanged, and the error state is the server's detail when there is one (a
non-empty text) and `Error en la operación` otherwise. -/
theorem mutations_resolve_with_failure (fuel : Nat) (r : Render) (w : TaskWorld)
    (e : ServiceError) (hst : e.status ≠ some 429) :
    (∀ (svc : Mutation Task) (taskData : Params),
      (svc (w.mutationCalls ++ [.createTask taskData])).result = .error e →
      ∃ w1 : TaskWorld,
        createTask (fuel + 1) svc r taskData w = some (.failed e.message, w1) ∧
        w1.state.tasks = w.state.tasks ∧
        w1.state.error = some (detailOr e.detail "Error en la operación") ∧
        w1.mutationCalls = w.mutationCalls ++ [.createTask taskData]) ∧
    (∀ (svc : Mutation Task) (id : Nat) (taskData : Params),
      (svc (w.mutationCalls ++ [.updateTask id taskData])).result = .error e →
      ∃ w1 : TaskWorld,
        updateTask (fuel + 1) svc r id taskData w = some (.failed e.message, w1) ∧
        w1.state.tasks = w.state.tasks ∧
        w1.state.error = some (detailOr e.detail "Error en la operación") ∧
        w1.mutationCalls = w.mutationCalls ++ [.updateTask id taskData]) ∧
    (∀ (svc : Mutation Unit) (id : Nat),
      (svc (w.mutationCalls ++ [.deleteTask id])).result = .error e →
      ∃ w1 : TaskWorld,
        deleteTask (fuel + 1) svc r id w = some (.failed e.message, w1) ∧
        w1.state.tasks = w.state.tasks ∧
        w1.state.error = some (detailOr e.detail "Error en la operación") ∧
        w1.mutationCalls = w.mutationCalls ++ [.deleteTask id]) ∧
    (∀ d, e.detail = some d → d ≠ "" → detailOr e.detail "Error en la operación" = d) ∧
    (e.detail = none →
      detailOr e.detail "Error en la operación" = "Error en la operación") := by
  refine ⟨?_, ?_, ?_, ?_, ?_⟩
  · intro svc taskData h
    exact ⟨_, createTask_of_failure fuel svc r taskData w e h hst, rfl, rfl, rfl⟩
  · intro svc id taskData h
    exact ⟨_, updateTask_of_failure fuel svc r id taskData w e h hst, rfl, rfl, rfl⟩
  · intro svc id h
    exact ⟨_, deleteTask_of_failure fuel svc r id w e h hst, rfl, rfl, rfl⟩
  · intro d hd hne
    rw [hd]
    exact detailOr_of_detail d _ hne
  · intro hd
    rw [hd]
    exact detailOr_of_none _

/-- An instance of the first-attempt part of C21: the three operations against a
service that rejects with the detailed failure of the test-suite, in a provider that
holds two tasks. -/
theorem mutations_resolve_with_failure_witness :
    (∃ w1 : TaskWorld,
      createTask (0 + 1) (fun _ => { latency := 20, result := .error detailedFailure })
          (Render.ofState twoTaskProvider.state) [] twoTaskProvider =
        some (.failed detailedFailure.message, w1) ∧
      w1.state.tasks = twoTaskProvider.state.tasks ∧
      w1.state.error = some (detailOr detailedFailure.detail "Error en la operación") ∧
      w1.mutationCalls = twoTaskProvider.mutationCalls ++ [.createTask []]) ∧
    (∃ w1 : TaskWorld,
      updateTask (0 + 1) (fun _ => { latency := 20, result := .error detailedFailure })
          (Render.ofState twoTaskProvider.state) 1 [] twoTaskProvider =
        some (.failed detailedFailure.message, w1) ∧
      w1.state.tasks = twoTaskProvider.state.tasks ∧
      w1.state.error = some (detailOr detailedFailure.detail "Error en la operación") ∧
      w1.mutationCalls = twoTaskProvider.mutationCalls ++ [.updateTask 1 []]) ∧
    (∃ w1 : TaskWorld,
      deleteTask (0 + 1) (fun _ => { latency := 20, result := .error detailedFailure })
          (Render.ofState twoTaskProvider.state) 1 twoTaskProvider =
        some (.failed detailedFailure.message, w1) ∧
      w1.state.tasks = twoTaskProvider.state.tasks ∧
      w1.state.error = some (detailOr detailedFailure.detail "Error en la operación") ∧
      w1.mutationCalls = twoTaskProvider.mutationCalls ++ [.deleteTask 1]) ∧
    detailOr detailedFailure.detail "Error en la operación" = "Error al cargar tareas" :=
  ⟨(mutations_resolve_with_failure 0 (Render.ofState twoTaskProvider.state) twoTaskProvider
      detailedFailure (by decide)).1
      (fun _ => { latency := 20, result := .error detailedFailure }) [] rfl,
    (mutations_resolve_with_failure 0 (Render.ofState twoTaskProvider.state) twoTaskProvider
      detailedFailure (by decide)).2.1
      (fun _ => { latency := 20, result := .error detailedFailure }) 1 [] rfl,
    (mutations_resolve_with_failure 0 (Render.ofState twoTaskProvider.state) twoTaskProvider
      detailedFailure (by decide)).2.2.1
      (fun _ => { latency := 20, result := .error detailedFailure }) 1 rfl,
    (mutations_resolve_with_failure 0 (Render.ofState twoTaskProvider.state) twoTaskProvider
      detailedFailure (by decide)).2.2.2.1 "Error al cargar tareas" rfl (by decide)⟩

/-- C27, counterexample: the guard of the final `catch` is false on a 429 error, on an
error without status and on a `new Error`; and a `fetchTasks` whose call fails with no
response ends with the message that `handleApiError` set, not with the fallback
`Error al cargar tareas` that the final `catch` would set. -/
theorem finalCatchGuard_is_not_true :
    finalCatchGuard (.service tooManyRequests) = false ∧
    finalCatchGuard (.service detailedFailure) = false ∧
    finalCatchGuard (.newError "Too many requests") = false ∧
    (fetchTasks 1 (alwaysFailing networkFailure) (Render.ofState freshProvider.state) []
        freshProvider).map (fun res => res.2.state.error) =
      some (some "Error en la operación") := by
  decide

/-- C27, amended: in the final `catch` of `fetchTasks`, `createTask`, `updateTask` and
`deleteTask` the guard `!error.response?.status === 429` is false for every error,
whatever its status, so that `catch` never sets the error message: the world it leaves
is the world it received, and the error state after a failed operation is the one
`handleApiError` set. -/
theorem finalCatchGuard_never_holds :
    (∀ err : Thrown, finalCatchGuard err = false) ∧
    (∀ (err : Thrown) (message : String) (w : TaskWorld),
      (if finalCatchGuard err then setError (some message) w else w) = w) ∧
    (∀ (fuel : Nat) (getTasks : GetTasks) (r : Render) (params : Params) (w : TaskWorld)
      (e : ServiceError),
      (getTasks (callsAfter r params w)).result = .error e → e.status ≠ some 429 →
      (fetchTasks (fuel + 1) getTasks r params w).map (fun res => res.2.state.error) =
        some (some (detailOr e.detail "Error en la operación"))) ∧
    (∀ (fuel : Nat) (getTasks : GetTasks) (r : Render) (params : Params) (w : TaskWorld)
      (e : ServiceError),
      (getTasks (callsAfter r params w)).result = .error e → rateLimited e = true →
      3 ≤ r.retryCount →
      (fetchTasks (fuel + 1) getTasks r params w).map (fun res => res.2.state.error) =
        some (some limitExceededMessage)) ∧
    (∀ (fuel : Nat) (svc : Mutation Task) (r : Render) (taskData : Params) (w : TaskWorld)
      (e : ServiceError),
      (svc (w.mutationCalls ++ [.createTask taskData])).result = .error e →
      e.status ≠ some 429 →
      (createTask (fuel + 1) svc r taskData w).map (fun res => res.2.state.error) =
        some (some (detailOr e.detail "Error en la operación"))) := by
  refine ⟨fun _ => rfl, fun _ _ _ => rfl, ?_, ?_, ?_⟩
  · intro fuel getTasks r params w e h hst
    rw [fetchTasks_of_failure fuel getTasks r params w e h hst]
    rfl
  · intro fuel getTasks r params w e h hlim hr
    rw [fetchTasks_of_limit fuel getTasks r params w e h hlim hr]
    rfl
  · intro fuel svc r taskData w e h hst
    rw [createTask_of_failure fuel svc r taskData w e h hst]
    rfl

/-- Witness of the amended C27: a listing that fails with no response, a listing
rejected with 429 at the ceiling, and a creation that fails with no response. -/
theorem finalCatchGuard_never_holds_witness :
    (fetchTasks (0 + 1) (alwaysFailing networkFailure) (Render.ofState freshProvider.state)
        [] freshProvider).map (fun res => res.2.state.error) =
      some (some (detailOr networkFailure.detail "Error en la operación")) ∧
    (fetchTasks (0 + 1) alwaysLimited (Render.ofState exhaustedProvider.state) []
        exhaustedProvider).map (fun res => res.2.state.error) =
      some (some limitExceededMessage) ∧
    (createTask (0 + 1) (fun _ => { latency := 20, result := .error networkFailure })
        (Render.ofState freshProvider.state) [] freshProvider).map
        (fun res => res.2.state.error) =
      some (some (detailOr networkFailure.detail "Error en la operación")) :=
  ⟨finalCatchGuard_never_holds.2.2.1 0 (alwaysFailing networkFailure)
      (Render.ofState freshProvider.state) [] freshProvider networkFailure rfl (by decide),
    finalCatchGuard_never_holds.2.2.2.1 0 alwaysLimited
      (Render.ofState exhaustedProvider.state) [] exhaustedProvider tooManyRequests rfl
      (by decide) (by decide),
    finalCatchGuard_never_holds.2.2.2.2 0
      (fun _ => { latency := 20, result := .error networkFailure })
      (Render.ofState freshProvider.state) [] freshProvider networkFailure rfl (by decide)⟩

/-- C28, at its failing input: the first attempt is rejected with 429 and the retry
succeeds with the server's task. `createTask` resolves with the result object of its
re-invocation as the task, and the list holds that object in front of the task;
`updateTask` resolves likewise, and the list holds the result object in the place of
the updated task, which is no longer in it. -/
theorem retried_mutation_stores_result_object :
    createTask 2 (mutationLimitedThenOk 1 createdTask) (Render.ofState twoTaskProvider.state)
        [("title", .str "New Task")] twoTaskProvider =
      some (.succeeded (.succeeded (.task createdTask)),
        { state :=
            { twoTaskProvider.state with
              tasks := .succeeded (.task createdTask) :: .task createdTask ::
                twoTaskProvider.state.tasks,
              retryCount := 1 },
          now := 6040, getTasksCalls := [],
          mutationCalls := [.createTask [("title", .str "New Task")],
            .createTask [("title", .str "New Task")]] }) ∧
    updateTask 2 (mutationLimitedThenOk 1 updatedTaskOne)
        (Render.ofState twoTaskProvider.state) 1 [("title", .str "Updated Task")]
        twoTaskProvider =
      some (.succeeded (.succeeded (.task updatedTaskOne)),
        { state :=
            { twoTaskProvider.state with
              tasks := [.succeeded (.task updatedTaskOne),
                .task { id := 2, fields := [("title", .str "Tarea 2")] }],
              retryCount := 1 },
          now := 6040, getTasksCalls := [],
          mutationCalls := [.updateTask 1 [("title", .str "Updated Task")],
            .updateTask 1 [("title", .str "Updated Task")]] }) :=
  ⟨rfl, rfl⟩

/-! ## Authentication: the service and the provider -/

theorem removeTokens_getItem (b : World) :
    (removeTokens b).storage.getItem "access_token" = none ∧
      (removeTokens b).storage.getItem "refresh_token" = none ∧
      (removeTokens b).sent = b.sent ∧ (removeTokens b).navigations = b.navigations := by
  refine ⟨?_, ?_, rfl, rfl⟩
  · show getKey "access_token" (removeKey "refresh_token" (removeKey "access_token" _)) = none
    rw [getKey_removeKey_of_ne _ _ _ (by decide)]
    exact getKey_removeKey_self _ _
  · exact getKey_removeKey_self _ _

theorem withTokens_getItem (b : World) (accessToken refreshToken : String) :
    (withTokens b accessToken refreshToken).storage.getItem "access_token" =
        some accessToken ∧
      (withTokens b accessToken refreshToken).storage.getItem "refresh_token" =
        some refreshToken := by
  constructor
  · show getKey "access_token" (setKey "refresh_token" _ (setKey "access_token" _ _)) = _
    rw [getKey_setKey_of_ne _ _ _ _ (by decide)]
    exact getKey_setKey_self _ _ _
  · exact getKey_setKey_self _ _ _

/-- A request answered with a status other than 401: one pass through the client, whose
outcome is the response or its failure. -/
theorem api_of_response (fuel : Nat) (srv : Server) (config : Config) (w : World)
    (r : Response)
    (hsrv : srv w.sent (requestInterceptor w.storage config) = .response r)
    (hne : r.status ≠ 401) :
    api (fuel + 1) srv config w =
      some (if 200 ≤ r.status ∧ r.status < 300 then .ok r
          else .error { config := requestInterceptor w.storage config, response := some r },
        { w with sent := w.sent ++ [requestInterceptor w.storage config] }) := by
  by_cases hok : 200 ≤ r.status ∧ r.status < 300
  · simp [api, adapter, hsrv, hok, responseFulfilled]
  · simp [api, adapter, hsrv, hok, responseRejected, AxiosError.status, hne]

/-- A request that meets a network failure: one pass through the client. -/
theorem api_of_networkError (fuel : Nat) (srv : Server) (config : Config) (w : World)
    (hsrv : srv w.sent (requestInterceptor w.storage config) = .networkError) :
    api (fuel + 1) srv config w =
      some (.error { config := requestInterceptor w.storage config, response := none },
        { w with sent := w.sent ++ [requestInterceptor w.storage config] }) := by
  simp [api, adapter, hsrv, responseRejected, AxiosError.status]

/-- C22: for `logout` and `logoutAll` of the auth context and every settled outcome of
the service call, success or failure: the operation resolves (it does not throw), and
when it completes both `access_token` and `refresh_token` are absent from storage,
`user` is null, `isAuthenticated` is false and `error` is null. -/
theorem logout_clears_session (svc : AuthService) (w : AuthWorld) :
    (∀ (out : Except AxiosError Unit) (b1 : World), svc.logout w.browser = some (out, b1) →
      ∃ w1 : AuthWorld, logout svc w = some w1 ∧
        w1.browser.storage.getItem "access_token" = none ∧
        w1.browser.storage.getItem "refresh_token" = none ∧
        w1.state.user = none ∧ w1.state.isAuthenticated = false ∧
        w1.state.error = none) ∧
    (∀ (out : Except AxiosError Unit) (b1 : World),
      svc.logoutAll w.browser = some (out, b1) →
      ∃ w1 : AuthWorld, logoutAll svc w = some w1 ∧
        w1.browser.storage.getItem "access_token" = none ∧
        w1.browser.storage.getItem "refresh_token" = none ∧
        w1.state.user = none ∧ w1.state.isAuthenticated = false ∧
        w1.state.error = none) := by
  constructor
  · intro out b1 h
    refine ⟨logoutFinally w.state b1, ?_, (removeTokens_getItem b1).1,
      (removeTokens_getItem b1).2.1, rfl, rfl, rfl⟩
    cases out <;> simp [logout, h]
  · intro out b1 h
    refine ⟨logoutFinally w.state b1, ?_, (removeTokens_getItem b1).1,
      (removeTokens_getItem b1).2.1, rfl, rfl, rfl⟩
    cases out <;> simp [logoutAll, h]

/-- Witness of C22: a logged-in user logs out against a server that accepts the call,
and logs out of all sessions with the network down. -/
theorem logout_clears_session_witness :
    (∃ w1 : AuthWorld, logout (authServiceOn (api 1 authServer)) signedIn = some w1 ∧
      w1.browser.storage.getItem "access_token" = none ∧
      w1.browser.storage.getItem "refresh_token" = none ∧
      w1.state.user = none ∧ w1.state.isAuthenticated = false ∧
      w1.state.error = none) ∧
    (∃ w1 : AuthWorld, logoutAll (authServiceOn (api 1 offline)) signedIn = some w1 ∧
      w1.browser.storage.getItem "access_token" = none ∧
      w1.browser.storage.getItem "refresh_token" = none ∧
      w1.state.user = none ∧ w1.state.isAuthenticated = false ∧
      w1.state.error = none) :=
  ⟨(logout_clears_session (authServiceOn (api 1 authServer)) signedIn).1 (.ok ())
      (removeTokens
        { signedIn.browser with
          sent := [requestInterceptor signedIn.browser.storage
            (postConfig "/logout" [("token", .str "refresh-token")])] })
      (by decide),
    (logout_clears_session (authServiceOn (api 1 offline)) signedIn).2
      (.error
        { config := requestInterceptor signedIn.browser.storage logoutAllConfig,
          response := none })
      { signedIn.browser with
        sent := [requestInterceptor signedIn.browser.storage logoutAllConfig] }
      (by decide)⟩

/-- C23: when the token exchange succeeds with `access_token` `A` and `refresh_token`
`R` and the profile fetch that follows succeeds with a profile, `login` stores `A`
under `access_token` and `R` under `refresh_token` before it fetches the profile, sets
`user` to the profile (so `isAuthenticated` is true), returns `{success: true}`, leaves
`error` null and `loading` false; the browser it leaves is the one the profile fetch
left, which holds both tokens when the fetch has not touched the storage. -/
theorem login_success_stores_tokens_and_user (svc : AuthService) (email password : String)
    (w : AuthWorld) (b1 b3 : World) (response profile : List (String × JsVal))
    (A R : String)
    (hlogin : svc.login email password w.browser = some (.ok (some response), b1))
    (hA : getKey "access_token" response = some (.str A))
    (hR : getKey "refresh_token" response = some (.str R))
    (hme : svc.getCurrentUser (withTokens b1 A R) = some (.ok (some profile), b3)) :
    ∃ w1 : AuthWorld,
      login svc email password w = some (.ok .success, w1) ∧
      (withTokens b1 A R).storage.getItem "access_token" = some A ∧
      (withTokens b1 A R).storage.getItem "refresh_token" = some R ∧
      w1.browser = b3 ∧
      (b3.storage = (withTokens b1 A R).storage →
        w1.browser.storage.getItem "access_token" = some A ∧
        w1.browser.storage.getItem "refresh_token" = some R) ∧
      w1.state.user = some profile ∧
      w1.state.isAuthenticated = true ∧
      w1.state.error = none ∧
      w1.state.loading = false := by
  have hrun : login svc email password w =
      some (.ok .success,
        { state := { w.state with error := none, user := some profile, loading := false },
          browser := b3 }) := by
    have hme2 : svc.getCurrentUser
        { b1 with
          storage :=
            (b1.storage.setItem "access_token"
              (field "access_token" response).toJsString).setItem
              "refresh_token" (field "refresh_token" response).toJsString } =
        some (.ok (some profile), b3) := by
      simpa [field, hA, hR, JsVal.toJsString, withTokens] using hme
    simp only [login, hlogin, hme2]
  refine ⟨_, hrun, (withTokens_getItem b1 A R).1, (withTokens_getItem b1 A R).2, rfl, ?_,
    rfl, rfl, rfl, rfl⟩
  intro hb
  show b3.storage.getItem "access_token" = some A ∧ b3.storage.getItem "refresh_token" = some R
  rw [hb]
  exact withTokens_getItem b1 A R

/-- Witness of C23: a visitor logs in against `authServer` through the service of
`api.js`. -/
theorem login_success_stores_tokens_and_user_witness :
    ∃ w1 : AuthWorld,
      login (authServiceOn (api 1 authServer)) "test@example.com" "password" anonymous =
        some (.ok .success, w1) ∧
      (withTokens
        { emptyBrowser with sent := [tokenConfig "test@example.com" "password"] }
        "access-token" "refresh-token").storage.getItem "access_token" =
        some "access-token" ∧
      (withTokens
        { emptyBrowser with sent := [tokenConfig "test@example.com" "password"] }
        "access-token" "refresh-token").storage.getItem "refresh_token" =
        some "refresh-token" ∧
      w1.browser =
        { storage := [("access_token", "access-token"), ("refresh_token", "refresh-token")],
          navigations := [],
          sent := [tokenConfig "test@example.com" "password",
            requestInterceptor [("access_token", "access-token")] (getConfig "/me")] } ∧
      (({ storage := [("access_token", "access-token"), ("refresh_token", "refresh-token")],
          navigations := [],
          sent := [tokenConfig "test@example.com" "password",
            requestInterceptor [("access_token", "access-token")] (getConfig "/me")] } :
            World).storage =
          (withTokens
            { emptyBrowser with sent := [tokenConfig "test@example.com" "password"] }
            "access-token" "refresh-token").storage →
        w1.browser.storage.getItem "access_token" = some "access-token" ∧
        w1.browser.storage.getItem "refresh_token" = some "refresh-token") ∧
      w1.state.user = some testProfile ∧
      w1.state.isAuthenticated = true ∧
      w1.state.error = none ∧
      w1.state.loading = false :=
  login_success_stores_tokens_and_user (authServiceOn (api 1 authServer)) "test@example.com"
    "password" anonymous
    { emptyBrowser with sent := [tokenConfig "test@example.com" "password"] }
    { storage := [("access_token", "access-token"), ("refresh_token", "refresh-token")],
      navigations := [],
      sent := [tokenConfig "test@example.com" "password",
        requestInterceptor [("access_token", "access-token")] (getConfig "/me")] }
    [("access_token", .str "access-token"), ("refresh_token", .str "refresh-token"),
      ("token_type", .str "bearer")]
    testProfile "access-token" "refresh-token" (by decide) (by decide) (by decide)
    (by decide)

theorem loginMessage_of_detail (e : AxiosError) (r : Response) (data : List (String × JsVal))
    (d : String) (hr : e.response = some r) (hdata : r.data = some data)
    (hd : getKey "detail" data = some (.str d)) (hne : d ≠ "") : loginMessage e = d := by
  simp [loginMessage, messageOr, Caught.detail, hr, hdata, hd, JsVal.truthy, hne,
    JsVal.toJsString]

theorem loginMessage_of_no_response (e : AxiosError) (hr : e.response = none) :
    loginMessage e = "Error al iniciar sesión" := by
  simp [loginMessage, messageOr, Caught.detail, hr, JsVal.truthy]

/-- The token exchange is rejected: `login` throws and has written nothing. -/
theorem login_of_rejected_exchange (svc : AuthService) (email password : String)
    (w : AuthWorld) (e : AxiosError) (b1 : World)
    (h : svc.login email password w.browser = some (.error e, b1)) :
    login svc email password w =
      some (.error { message := loginMessage e },
        { state := { w.state with error := some (loginMessage e), loading := false },
          browser := b1 }) := by
  simp only [login, h]
  rfl

/-- The token exchange succeeds and the profile fetch is rejected: `login` throws, in
the browser the profile fetch left. -/
theorem login_of_rejected_profile (svc : AuthService) (email password : String)
    (w : AuthWorld) (response : List (String × JsVal)) (e : AxiosError) (b1 b3 : World)
    (h : svc.login email password w.browser = some (.ok (some response), b1))
    (hme : svc.getCurrentUser
      (withTokens b1 (field "access_token" response).toJsString
        (field "refresh_token" response).toJsString) = some (.error e, b3)) :
    login svc email password w =
      some (.error { message := loginMessage e },
        { state := { w.state with error := some (loginMessage e), loading := false },
          browser := b3 }) := by
  have hme2 : svc.getCurrentUser
      { b1 with
        storage :=
          (b1.storage.setItem "access_token"
            (field "access_token" response).toJsString).setItem
            "refresh_token" (field "refresh_token" response).toJsString } =
      some (.error e, b3) := hme
  simp only [login, h, hme2]
  rfl

/-- C24: when `login` fails, because the token exchange is rejected, because the
profile fetch is rejected, or because the exchange resolves without a body, the error
state is the server's `response.data.detail` when there is one (a non-empty text) and
`Error al iniciar sesión` otherwise (a failure with no response included), `login`
throws an Error whose message is that same string, `user` is unchanged and `loading`
ends false. -/
theorem login_failure_sets_message (svc : AuthService) (email password : String)
    (w : AuthWorld) :
    (∀ (e : AxiosError) (b1 : World),
      svc.login email password w.browser = some (.error e, b1) →
      ∃ w1 : AuthWorld,
        login svc email password w = some (.error { message := loginMessage e }, w1) ∧
        w1.state.error = some (loginMessage e) ∧ w1.state.user = w.state.user ∧
        w1.state.loading = false) ∧
    (∀ (response : List (String × JsVal)) (e : AxiosError) (b1 b3 : World),
      svc.login email password w.browser = some (.ok (some response), b1) →
      svc.getCurrentUser
        (withTokens b1 (field "access_token" response).toJsString
          (field "refresh_token" response).toJsString) = some (.error e, b3) →
      ∃ w1 : AuthWorld,
        login svc email password w = some (.error { message := loginMessage e }, w1) ∧
        w1.state.error = some (loginMessage e) ∧ w1.state.user = w.state.user ∧
        w1.state.loading = false) ∧
    (∀ b1 : World, svc.login email password w.browser = some (.ok none, b1) →
      ∃ w1 : AuthWorld,
        login svc email password w =
          some (.error { message := "Error al iniciar sesión" }, w1) ∧
        w1.state.error = some "Error al iniciar sesión" ∧ w1.state.user = w.state.user ∧
        w1.state.loading = false) ∧
    (∀ (e : AxiosError) (r : Response) (data : List (String × JsVal)) (d : String),
      e.response = some r → r.data = some data → getKey "detail" data = some (.str d) →
      d ≠ "" → loginMessage e = d) ∧
    (∀ e : AxiosError, e.response = none → loginMessage e = "Error al iniciar sesión") := by
  refine ⟨?_, ?_, ?_, loginMessage_of_detail, loginMessage_of_no_response⟩
  · intro e b1 h
    exact ⟨_, login_of_rejected_exchange svc email password w e b1 h, rfl, rfl, rfl⟩
  · intro response e b1 b3 h hme
    exact ⟨_, login_of_rejected_profile svc email password w response e b1 b3 h hme, rfl,
      rfl, rfl⟩
  · intro b1 h
    have hrun : login svc email password w =
        some (.error { message := "Error al iniciar sesión" },
          { state :=
              { user := w.state.user, loading := false,
                error := some "Error al iniciar sesión" },
            browser := b1 }) := by
      simp only [login, h]
      rfl
    exact ⟨_, hrun, rfl, rfl, rfl⟩

/-- Witness of C24: wrong credentials, answered with a detail, and a login with the
network down. -/
theorem login_failure_sets_message_witness :
    (∃ w1 : AuthWorld,
      login (authServiceOn (api 1 rejectingServer)) "test@example.com" "password" anonymous =
        some (.error { message := "Invalid credentials" }, w1) ∧
      w1.state.error = some "Invalid credentials" ∧ w1.state.user = anonymous.state.user ∧
      w1.state.loading = false) ∧
    (∃ w1 : AuthWorld,
      login (authServiceOn (api 1 offline)) "test@example.com" "password" anonymous =
        some (.error { message := "Error al iniciar sesión" }, w1) ∧
      w1.state.error = some "Error al iniciar sesión" ∧
      w1.state.user = anonymous.state.user ∧ w1.state.loading = false) :=
  ⟨(login_failure_sets_message (authServiceOn (api 1 rejectingServer)) "test@example.com"
      "password" anonymous).1
      { config := { tokenConfig "test@example.com" "password" with _retry := true },
        response := some invalidCredentials }
      { emptyBrowser with sent := [tokenConfig "test@example.com" "password"] } (by decide),
    (login_failure_sets_message (authServiceOn (api 1 offline)) "test@example.com"
      "password" anonymous).1
      { config := tokenConfig "test@example.com" "password", response := none }
      { emptyBrowser with sent := [tokenConfig "test@example.com" "password"] } (by decide)⟩

/-- C25: the start-up check. With no access token stored the profile call is not made
(whatever the service would do, the browser is untouched and `user` is as it was,
null at mount); with a token stored and a successful profile call `user` is the value
the call returned; when the call fails the two tokens are removed if the failure status
is 401 and the browser is left as the call left it otherwise; in every case `loading`
ends false. -/
theorem checkAuth_outcomes (svc : AuthService) (w : AuthWorld) :
    (w.browser.storage.getItem "access_token" = none →
      checkAuth svc w = some { w with state := { w.state with loading := false } }) ∧
    (∀ t : String, w.browser.storage.getItem "access_token" = some t → t ≠ "" →
      (∀ (userData : Body) (b1 : World),
        svc.getCurrentUser w.browser = some (.ok userData, b1) →
        checkAuth svc w =
          some { state := { w.state with user := userData, loading := false },
                 browser := b1 }) ∧
      (∀ (e : AxiosError) (b1 : World),
        svc.getCurrentUser w.browser = some (.error e, b1) → e.status = some 401 →
        ∃ w1 : AuthWorld, checkAuth svc w = some w1 ∧
          w1.browser = removeTokens b1 ∧
          w1.browser.storage.getItem "access_token" = none ∧
          w1.browser.storage.getItem "refresh_token" = none ∧
          w1.state.user = w.state.user ∧ w1.state.loading = false) ∧
      (∀ (e : AxiosError) (b1 : World),
        svc.getCurrentUser w.browser = some (.error e, b1) → e.status ≠ some 401 →
        checkAuth svc w =
          some { state := { w.state with loading := false }, browser := b1 })) := by
  refine ⟨?_, ?_⟩
  · intro h
    simp [checkAuth, h, truthy]
  · intro t ht hne
    have htr : truthy (w.browser.storage.getItem "access_token") = true := by
      rw [ht]; exact truthy_some hne
    refine ⟨?_, ?_, ?_⟩
    · intro userData b1 h
      simp [checkAuth, htr, h]
    · intro e b1 h hst
      refine ⟨{ state := { w.state with loading := false }, browser := removeTokens b1 }, ?_,
        rfl, (removeTokens_getItem b1).1, (removeTokens_getItem b1).2.1, rfl, rfl⟩
      simp [checkAuth, htr, h, hst]
    · intro e b1 h hst
      simp [checkAuth, htr, h, hst]

/-- Witness of C25: a mount without a token, a mount with a token and a profile that is
served, one whose profile call is rejected with 401, and one whose profile call meets a
500. -/
theorem checkAuth_outcomes_witness :
    checkAuth (authServiceOn (api 1 authServer))
        { state := AuthState.initial, browser := emptyBrowser } =
      some { state := { AuthState.initial with loading := false }, browser := emptyBrowser } ∧
    checkAuth (authServiceOn (api 1 authServer)) returning =
      some { state := { AuthState.initial with user := some testProfile, loading := false },
             browser :=
               { tokenBrowser with
                 sent := [requestInterceptor tokenBrowser.storage (getConfig "/me")] } } ∧
    (∃ w1 : AuthWorld, checkAuth (mockProfileService rejectProfile401) returning = some w1 ∧
      w1.browser = removeTokens tokenBrowser ∧
      w1.browser.storage.getItem "access_token" = none ∧
      w1.browser.storage.getItem "refresh_token" = none ∧
      w1.state.user = returning.state.user ∧ w1.state.loading = false) ∧
    checkAuth (authServiceOn (api 1 profileDownServer)) returning =
      some { state := { AuthState.initial with loading := false },
             browser :=
               { tokenBrowser with
                 sent := [requestInterceptor tokenBrowser.storage (getConfig "/me")] } } :=
  ⟨(checkAuth_outcomes (authServiceOn (api 1 authServer))
      { state := AuthState.initial, browser := emptyBrowser }).1 (by decide),
    ((checkAuth_outcomes (authServiceOn (api 1 authServer)) returning).2 "old-token"
      (by decide) (by decide)).1 (some testProfile)
      { tokenBrowser with
        sent := [requestInterceptor tokenBrowser.storage (getConfig "/me")] } (by decide),
    ((checkAuth_outcomes (mockProfileService rejectProfile401) returning).2 "old-token"
      (by decide) (by decide)).2.1
      { config := getConfig "/me", response := some unauthorized } tokenBrowser (by decide)
      (by decide),
    ((checkAuth_outcomes (authServiceOn (api 1 profileDownServer)) returning).2 "old-token"
      (by decide) (by decide)).2.2
      { config := requestInterceptor tokenBrowser.storage (getConfig "/me"),
        response := some serverFailure }
      { tokenBrowser with
        sent := [requestInterceptor tokenBrowser.storage (getConfig "/me")] } (by decide)
      (by decide)⟩

/-- C26, counterexample: a visitor with an empty storage registers against a server
that accepts the registration. `register` resolves with `{success: true}`, one request
has been sent, and neither `access_token` nor `refresh_token` is stored. -/
theorem register_leaves_storage_empty :
    register (authServiceOn (api 1 authServer)) "testuser" "test@example.com" "password"
        anonymous =
      some (.ok .success,
        { state := anonymous.state,
          browser :=
            { emptyBrowser with
              sent := [postConfig "/register"
                (registerData "testuser" "test@example.com" "password")] } }) ∧
    (register (authServiceOn (api 1 authServer)) "testuser" "test@example.com" "password"
        anonymous).map
        (fun res =>
          (res.2.browser.storage.getItem "access_token",
            res.2.browser.storage.getItem "refresh_token")) =
      some (none, none) := by
  decide

/-- C26, amended: a successful `register` call of the auth context creates no
credential pair. It returns `{success: true}` with `error` null and writes nothing
itself: the browser is the one the service call left; and with the service of `api.js`,
when the server answers the POST `/register` with a 2xx response, the storage is
exactly as it was before the call, so neither slot is set by it. -/
theorem register_stores_no_credential (username email password : String) (w : AuthWorld) :
    (∀ (svc : AuthService) (data : Body) (b1 : World),
      svc.register (registerData username email password) w.browser = some (.ok data, b1) →
      register svc username email password w =
        some (.ok .success, { state := { w.state with error := none }, browser := b1 })) ∧
    (∀ (fuel : Nat) (srv : Server) (r : Response),
      srv w.browser.sent
          (requestInterceptor w.browser.storage
            (postConfig "/register" (registerData username email password))) =
        .response r →
      (200 ≤ r.status ∧ r.status < 300) →
      ∃ w1 : AuthWorld,
        register (authServiceOn (api (fuel + 1) srv)) username email password w =
          some (.ok .success, w1) ∧
        w1.browser.storage = w.browser.storage ∧
        w1.browser.storage.getItem "access_token" =
          w.browser.storage.getItem "access_token" ∧
        w1.browser.storage.getItem "refresh_token" =
          w.browser.storage.getItem "refresh_token") := by
  have hfirst : ∀ (svc : AuthService) (data : Body) (b1 : World),
      svc.register (registerData username email password) w.browser = some (.ok data, b1) →
      register svc username email password w =
        some (.ok .success, { state := { w.state with error := none }, browser := b1 }) := by
    intro svc data b1 h
    have h2 : svc.register
        [("username", .str username), ("email", .str email), ("password", .str password)]
        w.browser = some (.ok data, b1) := h
    simp only [register, h2]
  refine ⟨hfirst, ?_⟩
  intro fuel srv r hsrv hok
  have hne : r.status ≠ 401 := by omega
  have hcall := api_of_response fuel srv
    (postConfig "/register" (registerData username email password)) w.browser r hsrv hne
  have hsvc : (authServiceOn (api (fuel + 1) srv)).register
      (registerData username email password) w.browser =
      some (.ok r.data,
        { w.browser with
          sent := w.browser.sent ++
            [requestInterceptor w.browser.storage
              (postConfig "/register" (registerData username email password))] }) := by
    show returnData (api (fuel + 1) srv) _ w.browser = _
    simp only [returnData, hcall, hok, and_self, if_true]
  exact ⟨_, hfirst _ _ _ hsvc, rfl, rfl, rfl⟩

/-- Witness of the amended C26: the registration of a visitor against `authServer`. -/
theorem register_stores_no_credential_witness :
    register (authServiceOn (api 1 authServer)) "testuser" "test@example.com" "password"
        anonymous =
      some (.ok .success,
        { state := { anonymous.state with error := none },
          browser :=
            { emptyBrowser with
              sent := [postConfig "/register"
                (registerData "testuser" "test@example.com" "password")] } }) ∧
    (∃ w1 : AuthWorld,
      register (authServiceOn (api (0 + 1) authServer)) "testuser" "test@example.com"
          "password" anonymous = some (.ok .success, w1) ∧
      w1.browser.storage = anonymous.browser.storage ∧
      w1.browser.storage.getItem "access_token" =
        anonymous.browser.storage.getItem "access_token" ∧
      w1.browser.storage.getItem "refresh_token" =
        anonymous.browser.storage.getItem "refresh_token") :=
  ⟨(register_stores_no_credential "testuser" "test@example.com" "password" anonymous).1
      (authServiceOn (api 1 authServer)) (some testProfile)
      { emptyBrowser with
        sent := [postConfig "/register"
          (registerData "testuser" "test@example.com" "password")] }
      (by decide),
    (register_stores_no_credential "testuser" "test@example.com" "password" anonymous).2 0
      authServer { status := 200, headers := [], data := some testProfile } (by decide)
      (by decide)⟩

/-- C29, counterexample: the token exchange succeeds and the profile fetch is answered
500. `login` throws, and both tokens it wrote before the fetch are still in storage. -/
theorem login_failure_keeps_written_tokens :
    (login (authServiceOn (api 1 profileDownServer)) "test@example.com" "password"
        anonymous).map
        (fun res =>
          (res.1, res.2.browser.storage.getItem "access_token",
            res.2.browser.storage.getItem "refresh_token")) =
      some (.error { message := "Error al iniciar sesión" }, some "access-token",
        some "refresh-token") ∧
    anonymous.browser.storage.getItem "access_token" = none ∧
    anonymous.browser.storage.getItem "refresh_token" = none := by
  decide

/-- C29, amended: `login` writes no token when it throws because the token exchange was
rejected or resolved without a body (the browser is the one the exchange left); when
the exchange succeeds and the profile fetch is rejected, `login` throws after it has
written both tokens and does not remove them: the fetch was started with both stored
and the browser is the one the fetch left. -/
theorem login_writes_tokens_before_profile (svc : AuthService) (email password : String)
    (w : AuthWorld) :
    (∀ (e : AxiosError) (b1 : World),
      svc.login email password w.browser = some (.error e, b1) →
      ∃ (err : NewError) (w1 : AuthWorld),
        login svc email password w = some (.error err, w1) ∧ w1.browser = b1) ∧
    (∀ b1 : World, svc.login email password w.browser = some (.ok none, b1) →
      ∃ (err : NewError) (w1 : AuthWorld),
        login svc email password w = some (.error err, w1) ∧ w1.browser = b1) ∧
    (∀ (response : List (String × JsVal)) (A R : String) (e : AxiosError) (b1 b3 : World),
      svc.login email password w.browser = some (.ok (some response), b1) →
      getKey "access_token" response = some (.str A) →
      getKey "refresh_token" response = some (.str R) →
      svc.getCurrentUser (withTokens b1 A R) = some (.error e, b3) →
      ∃ (err : NewError) (w1 : AuthWorld),
        login svc email password w = some (.error err, w1) ∧ w1.browser = b3 ∧
        (withTokens b1 A R).storage.getItem "access_token" = some A ∧
        (withTokens b1 A R).storage.getItem "refresh_token" = some R ∧
        (b3.storage = (withTokens b1 A R).storage →
          w1.browser.storage.getItem "access_token" = some A ∧
          w1.browser.storage.getItem "refresh_token" = some R)) := by
  refine ⟨?_, ?_, ?_⟩
  · intro e b1 h
    exact ⟨_, _, login_of_rejected_exchange svc email password w e b1 h, rfl⟩
  · intro b1 h
    have hrun : login svc email password w =
        some (.error { message := "Error al iniciar sesión" },
          { state :=
              { user := w.state.user, loading := false,
                error := some "Error al iniciar sesión" },
            browser := b1 }) := by
      simp only [login, h]
      rfl
    exact ⟨_, _, hrun, rfl⟩
  · intro response A R e b1 b3 h hA hR hme
    have hme2 : svc.getCurrentUser
        (withTokens b1 (field "access_token" response).toJsString
          (field "refresh_token" response).toJsString) = some (.error e, b3) := by
      simpa [field, hA, hR, JsVal.toJsString] using hme
    refine ⟨_, _, login_of_rejected_profile svc email password w response e b1 b3 h hme2,
      rfl, (withTokens_getItem b1 A R).1, (withTokens_getItem b1 A R).2, ?_⟩
    intro hb
    show b3.storage.getItem "access_token" = some A ∧
      b3.storage.getItem "refresh_token" = some R
    rw [hb]
    exact withTokens_getItem b1 A R

/-- Witness of the amended C29: wrong credentials leave the storage empty, and a
profile fetch answered 500 leaves both tokens of the exchange in it. -/
theorem login_writes_tokens_before_profile_witness :
    (∃ (err : NewError) (w1 : AuthWorld),
      login (authServiceOn (api 1 rejectingServer)) "test@example.com" "password" anonymous =
        some (.error err, w1) ∧
      w1.browser = { emptyBrowser with sent := [tokenConfig "test@example.com" "password"] }) ∧
    (∃ (err : NewError) (w1 : AuthWorld),
      login (authServiceOn (api 1 profileDownServer)) "test@example.com" "password"
          anonymous = some (.error err, w1) ∧
      w1.browser =
        { storage := [("access_token", "access-token"), ("refresh_token", "refresh-token")],
          navigations := [],
          sent := [tokenConfig "test@example.com" "password",
            requestInterceptor [("access_token", "access-token")] (getConfig "/me")] } ∧
      (withTokens
        { emptyBrowser with sent := [tokenConfig "test@example.com" "password"] }
        "access-token" "refresh-token").storage.getItem "access_token" =
        some "access-token" ∧
      (withTokens
        { emptyBrowser with sent := [tokenConfig "test@example.com" "password"] }
        "access-token" "refresh-token").storage.getItem "refresh_token" =
        some "refresh-token" ∧
      (({ storage := [("access_token", "access-token"), ("refresh_token", "refresh-token")],
          navigations := [],
          sent := [tokenConfig "test@example.com" "password",
            requestInterceptor [("access_token", "access-token")] (getConfig "/me")] } :
            World).storage =
          (withTokens
            { emptyBrowser with sent := [tokenConfig "test@example.com" "password"] }
            "access-token" "refresh-token").storage →
        w1.browser.storage.getItem "access_token" = some "access-token" ∧
        w1.browser.storage.getItem "refresh_token" = some "refresh-token")) :=
  ⟨(login_writes_tokens_before_profile (authServiceOn (api 1 rejectingServer))
      "test@example.com" "password" anonymous).1
      { config := { tokenConfig "test@example.com" "password" with _retry := true },
        response := some invalidCredentials }
      { emptyBrowser with sent := [tokenConfig "test@example.com" "password"] } (by decide),
    (login_writes_tokens_before_profile (authServiceOn (api 1 profileDownServer))
      "test@example.com" "password" anonymous).2.2
      [("access_token", .str "access-token"), ("refresh_token", .str "refresh-token"),
        ("token_type", .str "bearer")]
      "access-token" "refresh-token"
      { config := requestInterceptor [("access_token", "access-token")] (getConfig "/me"),
        response := some serverFailure }
      { emptyBrowser with sent := [tokenConfig "test@example.com" "password"] }
      { storage := [("access_token", "access-token"), ("refresh_token", "refresh-token")],
        navigations := [],
        sent := [tokenConfig "test@example.com" "password",
          requestInterceptor [("access_token", "access-token")] (getConfig "/me")] }
      (by decide) (by decide) (by decide) (by decide)⟩

/-- C30, counterexample: both tokens are stored and the server answers the POST
`/logout` with 401 because the access token has expired. The response interceptor
refreshes the token and sends the POST again: `authService.logout` resolves after two
POST `/logout` requests and one POST `/refresh`. -/
theorem authService_logout_can_post_twice :
    (authService.logout (api 2 expiredAccessServer) tokenBrowser).map
        (fun res =>
          (res.1.toBool, res.2.sent.map (fun c => (c.method, c.url, c.data)),
            res.2.storage)) =
      some (true,
        [("post", "/logout", some [("token", .str "refresh-token")]),
          ("post", "/refresh", some [("token", .str "refresh-token")]),
          ("post", "/logout", some [("token", .str "refresh-token")])],
        []) := by
  rfl

/-- C30, amended: `authService.logout` sends no request when no refresh token is stored
and resolves with both tokens removed. Otherwise it makes one call
`api.post('/logout', {token})` with the stored refresh token: when that call resolves,
both tokens have been removed; when it is rejected, the function rejects with the same
error and removes nothing itself. The call puts exactly one POST `/logout` on the
network when the server answers it with anything but a 401 (a 2xx response, another
status, or a network failure); a 401 hands the request to the refresh protocol. -/
theorem authService_logout_outcomes (w : World) :
    (w.storage.getItem "refresh_token" = none →
      ∀ client : Client, authService.logout client w = some (.ok (), removeTokens w)) ∧
    (∀ rt : String, w.storage.getItem "refresh_token" = some rt → rt ≠ "" →
      (∀ client : Client,
        authService.logout client w =
          (match client (postConfig "/logout" [("token", .str rt)]) w with
            | none => none
            | some (.ok _, w1) => some (.ok (), removeTokens w1)
            | some (.error e, w1) => some (.error e, w1))) ∧
      (logoutRequest w.storage rt).method = "post" ∧
      (logoutRequest w.storage rt).url = "/logout" ∧
      (logoutRequest w.storage rt).data = some [("token", .str rt)] ∧
      (∀ (fuel : Nat) (srv : Server) (r : Response),
        srv w.sent (logoutRequest w.storage rt) = .response r → r.status ≠ 401 →
        authService.logout (api (fuel + 1) srv) w =
          (if 200 ≤ r.status ∧ r.status < 300 then
            some (.ok (),
              removeTokens { w with sent := w.sent ++ [logoutRequest w.storage rt] })
          else
            some (.error { config := logoutRequest w.storage rt, response := some r },
              { w with sent := w.sent ++ [logoutRequest w.storage rt] }))) ∧
      (∀ (fuel : Nat) (srv : Server),
        srv w.sent (logoutRequest w.storage rt) = .networkError →
        authService.logout (api (fuel + 1) srv) w =
          some (.error { config := logoutRequest w.storage rt, response := none },
            { w with sent := w.sent ++ [logoutRequest w.storage rt] }))) := by
  refine ⟨?_, ?_⟩
  · intro h client
    simp [authService.logout, h, truthy]
  · intro rt hrt hne
    have hgen : ∀ client : Client,
        authService.logout client w =
          (match client (postConfig "/logout" [("token", .str rt)]) w with
            | none => none
            | some (.ok _, w1) => some (.ok (), removeTokens w1)
            | some (.error e, w1) => some (.error e, w1)) := by
      intro client
      simp only [authService.logout, hrt, truthy_some hne, Option.getD_some, if_true]
    refine ⟨hgen, ?_, ?_, ?_, ?_, ?_⟩
    · show (requestInterceptor w.storage _).method = "post"
      unfold requestInterceptor
      by_cases ha : truthy (w.storage.getItem "access_token") = true <;> simp [ha, postConfig]
    · show (requestInterceptor w.storage _).url = "/logout"
      unfold requestInterceptor
      by_cases ha : truthy (w.storage.getItem "access_token") = true <;> simp [ha, postConfig]
    · show (requestInterceptor w.storage _).data = _
      unfold requestInterceptor
      by_cases ha : truthy (w.storage.getItem "access_token") = true <;> simp [ha, postConfig]
    · intro fuel srv r hsrv hne401
      rw [hgen, api_of_response fuel srv _ w r hsrv hne401]
      by_cases hok : 200 ≤ r.status ∧ r.status < 300
      · simp only [hok, and_self, if_true]
        rfl
      · simp only [hok, if_false]
        rfl
    · intro fuel srv hsrv
      rw [hgen, api_of_networkError fuel srv _ w hsrv]
      rfl

/-- Witness of the amended C30: a logout with an empty storage, one accepted by the
server, and one with the network down. -/
theorem authService_logout_outcomes_witness :
    authService.logout (api 1 authServer) emptyBrowser =
      some (.ok (), removeTokens emptyBrowser) ∧
    authService.logout (api (0 + 1) authServer) tokenBrowser =
      (if 200 ≤ noContent.status ∧ noContent.status < 300 then
        some (.ok (),
          removeTokens
            { tokenBrowser with
              sent := tokenBrowser.sent ++
                [logoutRequest tokenBrowser.storage "refresh-token"] })
      else
        some (.error
            { config := logoutRequest tokenBrowser.storage "refresh-token",
              response := some noContent },
          { tokenBrowser with
            sent := tokenBrowser.sent ++
              [logoutRequest tokenBrowser.storage "refresh-token"] })) ∧
    authService.logout (api (0 + 1) offline) tokenBrowser =
      some (.error
          { config := logoutRequest tokenBrowser.storage "refresh-token", response := none },
        { tokenBrowser with
          sent := tokenBrowser.sent ++
            [logoutRequest tokenBrowser.storage "refresh-token"] }) :=
  ⟨(authService_logout_outcomes emptyBrowser).1 (by decide) (api 1 authServer),
    ((authService_logout_outcomes tokenBrowser).2 "refresh-token" (by decide)
      (by decide)).2.2.2.2.1 0 authServer noContent (by decide) (by decide),
    ((authService_logout_outcomes tokenBrowser).2 "refresh-token" (by decide)
      (by decide)).2.2.2.2.2 0 offline (by decide)⟩


/-! ## Retry paths that the first-attempt statements leave out -/

/-- C10, counterexample: a listing that goes through three 429 rejections and then a
500 rejects with the 500 and leaves the attempt counter at 3, through `fetchTasks`
alone. A `fetchTasks` of the next render whose first attempt is answered 429, and whose
second attempt would succeed, invokes `getTasks` once and rejects with the
limit-exceeded message. The same happens from any render whose counter stands at 3. -/
theorem fetchTasks_at_ceiling_does_not_retry :
    (fetchTasks 4 limitedDownLimitedOk (Render.ofState freshProvider.state) []
        freshProvider).bind
        (fun res =>
          (fetchTasks 2 limitedDownLimitedOk (Render.ofState res.2.state) [] res.2).map
            (fun res2 =>
              (res.1, res.2.state.retryCount, res.2.getTasksCalls.length, res2.1,
                res2.2.getTasksCalls.length, res2.2.state.error))) =
      some (.error (.service serverDown), 3, 4, .error (.newError "Too many requests"), 5,
        some "Se ha excedido el límite de reintentos. Por favor, espera un momento.") ∧
    (∀ calls : List (Nat × Params), calls.length = 5 →
      (limitedDownLimitedOk calls).result = .error tooManyRequests) ∧
    (∀ calls : List (Nat × Params), calls.length = 6 →
      (limitedDownLimitedOk calls).result = .ok onePage) ∧
    (fetchTasks 2 (limitedThenOk 1) (Render.ofState exhaustedProvider.state) []
        exhaustedProvider).map (fun res => (res.1, res.2.getTasksCalls.length)) =
      some (.error (.newError "Too many requests"), 1) := by
  refine ⟨rfl, ?_, ?_, rfl⟩
  · intro calls h
    simp [limitedDownLimitedOk, h]
  · intro calls h
    simp [limitedDownLimitedOk, h]

/-- C21, at its failing input: a provider that holds tasks 1 and 2; the first call to
the service is rejected with 429 and the call of the retry with a 500. The re-invoked
operation resolves with `{success: false}` and does not throw, so the awaiting one goes
on as after a success: `deleteTask` resolves with `{success: true}` and removes task 1
from the list, `createTask` resolves with `success: true` and puts the failure object
in front of the list, `updateTask` resolves with `success: true` and puts the failure
object in the place of task 1. -/
theorem retried_mutation_hides_failure :
    (deleteTask 2 mutationLimitedThenDown (Render.ofState twoTaskProvider.state) 1
        twoTaskProvider).map
        (fun res => (res.1, res.2.state.tasks, res.2.state.error, res.2.mutationCalls)) =
      some (.done,
        [.task { id := 2, fields := [("title", .str "Tarea 2")] }],
        some "Error en la operación",
        [.deleteTask 1, .deleteTask 1]) ∧
    (createTask 2 mutationLimitedThenDown (Render.ofState twoTaskProvider.state)
        [("title", .str "New Task")] twoTaskProvider).map
        (fun res => (res.1, res.2.state.tasks, res.2.state.error)) =
      some (.succeeded (.failed (some "Request failed with status code 500")),
        .failed (some "Request failed with status code 500") ::
          twoTaskProvider.state.tasks,
        some "Error en la operación") ∧
    (updateTask 2 mutationLimitedThenDown (Render.ofState twoTaskProvider.state) 1
        [("title", .str "Updated Task")] twoTaskProvider).map
        (fun res => (res.1, res.2.state.tasks, res.2.state.error)) =
      some (.succeeded (.failed (some "Request failed with status code 500")),
        [.failed (some "Request failed with status code 500"),
          .task { id := 2, fields := [("title", .str "Tarea 2")] }],
        some "Error en la operación") := by
  decide


/-- C14, counterexample: the `retry-after` header is `3000000`, so that the header read
as seconds times 1000 is 3000000000 ms, more than the timer takes (2147483647). In a
runtime that fires such a timer at once the retry callback runs at the instant of the
429, clock 5000, and not 3000000000 ms later; the interim message announces 3000000
seconds. -/
theorem retry_after_beyond_timer_range_is_not_waited :
    handleApiError 0 retryMuchLater
        (fun w1 => some (.ok (w1.now, w1.state.error), w1)) freshProvider =
      some (.ok (5000, some "Demasiadas solicitudes. Reintentando en 3000000 segundos..."),
        { freshProvider with
          state :=
            { freshProvider.state with
              error := some "Demasiadas solicitudes. Reintentando en 3000000 segundos...",
              retryCount := 1 } }) ∧
    freshProvider.runtimeDelay = timersFireAtOnce ∧
    readDigits "3000000".data 0 = some 3000000 ∧
    freshProvider.now + 3000000 * 1000 ≠ 5000 ∧
    ¬ 3000000 * 1000 ≤ maxTimerDelay :=
  ⟨rfl, rfl, rfl, by decide, by decide⟩

end ApiListTareas
